import Mathlib

/-!
# Verification of the bridge-deal data-cleaning and scoring pipeline

A shallow embedding, in Lean 4, of the data-cleaning and scoring code of the
`dds-mlr-bridge` repository (`data_cleaning.py`, `dds.py`, `defs.py`,
`exceptions.py`), together with theorems settling the specification claims.

Modelling conventions:
* Python strings are Lean `String`s; where convenient a function works on the
  underlying `List Char` (`String.data`).
* Python exceptions are modelled with `Except`: each function that can raise
  returns `Except E A`, where `E` enumerates the exception classes that can
  escape it (including non-`BoardError` exceptions such as `ValueError` and
  `IndexError` where the Python code can actually raise them).
* Python integers are `Int` (or `Nat` for indices); `x % 4` on possibly
  negative values is `Int.emod` which agrees with Python `%` for a positive
  modulus, and `x // 1.5` (used once, on integers) equals `⌊2x/3⌋`, i.e.
  `Int.fdiv (2*x) 3`.
* Python `dict`s/`set`s are modelled by insertion-ordered association lists or
  `Finset`s as appropriate; dict iteration order is insertion order.
-/

set_option maxRecDepth 10000

open scoped List

deriving instance DecidableEq for Except

/-! ## `defs.py` -/

/-- `ORDER` from `defs.py`: the four seats, clockwise. -/
def ORDER : List String := ["N", "E", "S", "W"]

/-- `RANKS` from `defs.py`: A,K,Q,J,T,9,8,7,6,5,4,3,2 (as characters). -/
def RANKS : List Char := ['A', 'K', 'Q', 'J', 'T', '9', '8', '7', '6', '5', '4', '3', '2']

/-- `SUITS` from `defs.py`: S,H,D,C,N (as characters; the Python list holds
one-character strings). -/
def SUITS : List Char := ['S', 'H', 'D', 'C', 'N']

/-- `ORDERED_CONTRACT_BIDS` from `defs.py`: all 35 contract bids `1C`,...,`7N`
in increasing order. -/
def ORDERED_CONTRACT_BIDS : List String :=
  (List.range 7).flatMap (fun level =>
    ["C", "D", "H", "S", "N"].map (fun trump => toString (level + 1) ++ trump))

/-! ## Python string primitives -/

/-- Fuelled worker for `pyReplace`.  Each step consumes at least one character
of the subject string, so fuel equal to the string length is always enough
(the fuel is only there to make the recursion structural). -/
def pyReplaceAux (old new : List Char) : Nat → List Char → List Char
  | _, [] => []
  | 0, s => s
  | fuel + 1, c :: rest =>
    if old ≠ [] ∧ old.isPrefixOf (c :: rest) then
      new ++ pyReplaceAux old new fuel (List.drop old.length (c :: rest))
    else c :: pyReplaceAux old new fuel rest

/-- Python `s.replace(old, new)` for a non-empty `old`: replaces every
(leftmost, non-overlapping) occurrence of `old` in `s` by `new`. -/
def pyReplace (s old new : String) : String :=
  String.mk (pyReplaceAux old.data new.data s.data.length s.data)

/-- Worker for `pySplit`. -/
def pySplitAux (sep : Char) : List Char → List Char → List String
  | [], acc => [String.mk acc.reverse]
  | c :: rest, acc =>
    if c = sep then String.mk acc.reverse :: pySplitAux sep rest []
    else pySplitAux sep rest (c :: acc)

/-- Python `s.split(sep)` for a single-character separator: splits at every
occurrence, keeping empty parts; `"".split(sep) = [""]`. -/
def pySplit (s : String) (sep : Char) : List String :=
  pySplitAux sep s.data []

/-- Python `sep.join(parts)`. -/
def pyJoin (sep : String) : List String → String
  | [] => ""
  | [x] => x
  | x :: rest => x ++ sep ++ pyJoin sep rest

/-! ## `exceptions.py`

Each Python exception class that can escape one of the modelled functions is a
constructor.  `AuctionErr` and `PlayErr` are the `AuctionError` and
`PlaySequenceError` families; `BoardExc` collects everything `clean_board` can
raise: the `BoardError` family plus the builtin `ValueError`/`IndexError`
(which are *not* `BoardError`s and would escape `get_clean_boards`). -/

/-- The `AuctionError` family from `exceptions.py`. -/
inductive AuctionErr where
  | missingAuctionError
  | passError
  | contractBidError
  | doubleBidError
  | redoubleBidError
deriving DecidableEq, Repr

/-- `str(exc)` for an `AuctionError`: the docstring of the class
(`ExceptionWithDescripton.__str__`). -/
def AuctionErr.toStr : AuctionErr → String
  | .missingAuctionError => "Missing auction."
  | .passError => "The contract was passed out in the middle of the auction, or the auction did not end with three passes."
  | .contractBidError => "Contract bid was made in a non-increasing fashion."
  | .doubleBidError => "A double bid was made where the contract was already doubled or redoubled, the bid was made by the side who bid the last contract, or there was no contract bid made yet."
  | .redoubleBidError => "A redouble bid was made where the contract was not doubled or already redoubled, the bid was made by the side who did not bid the last contract, or there was no contract bid made yet."

/-- The `PlaySequenceError` family from `exceptions.py`. -/
inductive PlayErr where
  | missingPlaySequenceInfoError
  | firstCardIsDashError
  | cardAfterDashError
  | unbalancedPlaySequenceError
  | multipleClaimError
  | playError
  | renegeError
deriving DecidableEq, Repr

/-- `str(exc)` for a `PlaySequenceError`: the docstring of the class. -/
def PlayErr.toStr : PlayErr → String
  | .missingPlaySequenceInfoError => "Missing play_sequence, lead, or trump."
  | .firstCardIsDashError => "First card played to a trick is a dash."
  | .cardAfterDashError => "A card is played to a trick after a dash."
  | .unbalancedPlaySequenceError => "The number of legal plays, augmented with dashes if necessary, is not divisible by 4."
  | .multipleClaimError => "Dashes appeared in more than one trick."
  | .playError => "A card is played twice or the player never had it."
  | .renegeError => "A player reneged."

/-- Exceptions that can escape `clean_board`: the `BoardError` family from
`exceptions.py` plus the Python builtins `ValueError` and `IndexError` at the
places where the code can actually raise them. -/
inductive BoardExc where
  | missingDealError
  | unbalancedDealError
  | cardError
  | missingNamesError
  | claimError
  | contractContradictionError
  | declarerContradictionError
  | leadContradictionError
  | passContradictionError
  | pyValueError
  | pyIndexError
deriving DecidableEq, Repr

/-- Whether the exception is in the `BoardError` family (and hence is caught
and tallied by `get_clean_boards` rather than aborting the batch). -/
def BoardExc.isBoardError : BoardExc → Bool
  | .pyValueError => false
  | .pyIndexError => false
  | _ => true

/-! ## Scoring (`dds.py`, lines 479-585) -/

/-- `compute_undertrick_points` from `dds.py`.  The one float operation in the
source, `int(undertricks//1.5)` on an integer `undertricks`, equals
`⌊2*undertricks/3⌋ = Int.fdiv (2*undertricks) 3`. -/
def compute_undertrick_points (undertricks : Int) (double : String)
    (declarer_vulnerable : Bool) (year : Int) : Int :=
  let multiplier : Int := if double = "R" then 2 else 1
  if !declarer_vulnerable then
    if double = "" then (-50) * undertricks
    else if year ≠ 0 ∧ year ≤ 1987 then
      (-100 * multiplier) - ((200 * multiplier) * (undertricks - 1))
    else
      (-100 * multiplier) - ((200 * multiplier) * (min 2 ((2 * undertricks).fdiv 3)))
        - ((300 * multiplier) * (max (undertricks - 3) 0))
  else
    if double = "" then (-100) * undertricks
    else (-200 * multiplier) - ((300 * multiplier) * (undertricks - 1))

/-- `compute_contract_points` from `dds.py`.  `trump` is the one-character
string `contract[1]`. -/
def compute_contract_points (level : Int) (trump double : String) : Int :=
  let multiplier : Int := if double = "X" then 2 else if double = "R" then 4 else 1
  if trump = "C" ∨ trump = "D" then (20 * level) * multiplier
  else if trump = "S" ∨ trump = "H" then (30 * level) * multiplier
  else ((30 * level) * multiplier) + (10 * multiplier)

/-- `compute_bonus_points` from `dds.py`.  The float `multiplier` (1 or 1.5) is
only used in `int(500*multiplier)` and `int(1000*multiplier)`, which are the
integers 500/750 and 1000/1500. -/
def compute_bonus_points (level will_make contract_points : Int) (double : String)
    (declarer_vulnerable : Bool) : Int :=
  (if contract_points ≠ 0 ∧ contract_points < 100 then 50 else 0)
  + (if contract_points ≥ 100 then (if !declarer_vulnerable then 300 else 500) else 0)
  + (if level = 6 ∧ will_make ≥ 12 then (if declarer_vulnerable then 750 else 500) else 0)
  + (if level = 7 ∧ will_make = 13 then (if declarer_vulnerable then 1500 else 1000) else 0)
  + (if contract_points ≠ 0 ∧ double = "X" then 50 else 0)
  + (if contract_points ≠ 0 ∧ double = "R" then 100 else 0)

/-- `compute_overtrick_points` from `dds.py`.  When `double` is empty and
`trump` is none of the five suit letters, the Python code falls through the two
inner `if`s to the multiplier computation, exactly as here. -/
def compute_overtrick_points (overtricks : Int) (trump double : String)
    (declarer_vulnerable : Bool) : Int :=
  if double = "" ∧ (trump = "C" ∨ trump = "D") then overtricks * 20
  else if double = "" ∧ (trump = "S" ∨ trump = "H" ∨ trump = "N") then overtricks * 30
  else
    let multiplier : Int := (if declarer_vulnerable then 2 else 1) * (if double = "R" then 2 else 1)
    overtricks * 100 * multiplier

/-- The body of `compute_score` from `dds.py`, after the contract string has
been parsed into `level = int(contract[0])`, `trump = contract[1]` and
`double = contract[2] if len(contract) > 2 else ""`. -/
def compute_score_parsed (level : Int) (trump double : String) (will_make : Int)
    (declarer_vulnerable : Bool) (year : Int) : Int :=
  if will_make < level + 6 then
    compute_undertrick_points ((level + 6) - will_make) double declarer_vulnerable year
  else
    let score := compute_contract_points level trump double
    let score := score + compute_bonus_points level will_make score double declarer_vulnerable
    let score := score + compute_overtrick_points (will_make - (level + 6)) trump double
      declarer_vulnerable
    score

/-- `compute_score` from `dds.py`.  `none` models the exceptions the Python
code raises on a malformed contract string (`IndexError` on `contract[1]` or
`ValueError` from `int(contract[0])`). -/
def compute_score (contract : String) (will_make : Int) (declarer_vulnerable : Bool)
    (year : Int) : Option Int :=
  match contract.data with
  | c0 :: c1 :: rest =>
    if c0.isDigit then
      some (compute_score_parsed ((c0.toNat - 48 : Nat) : Int) (String.mk [c1])
        (match rest with
          | [] => ""
          | c2 :: _ => String.mk [c2]) will_make declarer_vulnerable year)
    else none
  | _ => none

/-! ## `get_vulnerable_players` (`data_cleaning.py`, lines 678-697) -/

/-- `get_vulnerable_players` from `data_cleaning.py`.  The Python loop
`for (vulnerable,replacement) in RECOGNIZABLE_VULNERABILITY.items():` uses the
parameter name `vulnerable` as its loop variable, so each iteration rebinds it
to the dict key and then to the replacement; the loop is unrolled here in dict
insertion order (`"NZ"` then `"All]"`).  The Python `set` result is modelled as
the list literal it is built from. -/
def get_vulnerable_players (vulnerable : String) : List String :=
  let vulnerable := "NZ"
  let vulnerable := pyReplace vulnerable vulnerable "NS"
  let vulnerable := "All]"
  let vulnerable := pyReplace vulnerable vulnerable "All"
  if vulnerable = "NS" then ["N", "S"]
  else if vulnerable = "EW" then ["E", "W"]
  else if vulnerable = "All" then ["N", "E", "S", "W"]
  else []

/-! ## The auction cleaner and validator (`data_cleaning.py`, lines 125-255) -/

/-- Python `s.find(sub, start)`: the least index `≥ start` at which `sub`
occurs in `s`, or `-1`. -/
def pyFind (s sub : String) (start : Nat) : Int :=
  match ((List.range (s.data.length + 1)).filter
      (fun i => start ≤ i ∧ (s.data.drop i).take sub.data.length = sub.data)).head? with
  | some i => (i : Int)
  | none => -1

/-- `VALID_BIDS` from `get_cleaned_bids` (a Python `set`, used only for
membership tests). -/
def VALID_BIDS : List String := ["P", "R", "X"] ++ ORDERED_CONTRACT_BIDS

/-- `NORMALIZE_BID` from `get_cleaned_bids` (insertion-ordered dict, used only
via key lookup). -/
def NORMALIZE_BID : List (String × String) :=
  [("PASS", "P"), ("AP", "P P P"), ("DBL", "X"), ("REDBL", "R"), ("XX", "R"),
   ("PAS", "P"), ("S3", "3S"), ("XXX", "X R")]

/-- The `re.findall` call of `get_cleaned_bids`: scan the token left to right,
at each position trying the alternatives `XX`, `PASS`, then the members of
`VALID_BIDS - {"P"}` (the 35 contract bids plus `R` and `X`; these never
overlap with each other, and `XX`/`PASS` are listed first in the pattern), and
skip one character on failure.  Returns the raw matches in order. -/
def findall_bids : List Char → List String
  | [] => []
  | 'X' :: 'X' :: rest => "XX" :: findall_bids rest
  | 'P' :: 'A' :: 'S' :: 'S' :: rest => "PASS" :: findall_bids rest
  | c1 :: c2 :: rest =>
    if ('1' ≤ c1 ∧ c1 ≤ '7') ∧ (c2 = 'C' ∨ c2 = 'D' ∨ c2 = 'H' ∨ c2 = 'S' ∨ c2 = 'N') then
      String.mk [c1, c2] :: findall_bids rest
    else if c1 = 'R' ∨ c1 = 'X' then
      String.mk [c1] :: findall_bids (c2 :: rest)
    else findall_bids (c2 :: rest)
  | [c1] => if c1 = 'R' ∨ c1 = 'X' then [String.mk [c1]] else []

/-- One token's normalization in `get_cleaned_bids`:
`bid.upper().rstrip("!").lstrip("=0=")` (Python `lstrip`/`rstrip` strip any
characters of the given set). -/
def strip_bid (bid : String) : String :=
  let cs := bid.data.map Char.toUpper
  let cs := (cs.reverse.dropWhile (fun c => c = '!')).reverse
  let cs := cs.dropWhile (fun c => c = '=' ∨ c = '0')
  String.mk cs

/-- `get_cleaned_bids` from `data_cleaning.py`: split on spaces, normalize each
token, keep valid bids, look up normalizable bids (which may expand to several
bids), and otherwise extract concatenated legal bids via `findall_bids`
(mapping the extracted `XX`/`PASS` through `NORMALIZE_BID`); anything else is
dropped. -/
def get_cleaned_bids (auction : String) : List String :=
  (pySplit auction ' ').flatMap (fun bid =>
    let bid := strip_bid bid
    if bid ∈ VALID_BIDS then [bid]
    else match NORMALIZE_BID.lookup bid with
      | some normalized => pySplit normalized ' '
      | none => (findall_bids bid.data).map (fun b => (NORMALIZE_BID.lookup b).getD b))

/-- The bid-separation loop of `validate_auction`: appends each non-contract
bid to the last sublist of `non_contract_bids`. -/
def appendToLast (ls : List (List String)) (b : String) : List (List String) :=
  match ls with
  | [] => [[b]]
  | [l] => [l ++ [b]]
  | l :: rest => l :: appendToLast rest b

/-- The separation of `cleaned_bids` into `contract_bids` and
`non_contract_bids` (`validate_auction`, lines 223-233). -/
def separate_bids (bids : List String) : List String × List (List String) :=
  bids.foldl (fun acc bid =>
    if bid ∈ ORDERED_CONTRACT_BIDS then (acc.1 ++ [bid], acc.2 ++ [[]])
    else (acc.1, appendToLast acc.2 bid))
    ([], [[]])

/-- The strictly-increasing check on contract bids (`validate_auction`,
lines 235-240). -/
def check_contract_bids : List String → Int → Except AuctionErr Unit
  | [], _ => .ok ()
  | bid :: rest, current =>
    if (ORDERED_CONTRACT_BIDS.indexOf bid : Int) ≤ current then .error .contractBidError
    else check_contract_bids rest (ORDERED_CONTRACT_BIDS.indexOf bid : Int)

/-- The double/redouble scan over one run of non-contract bids
(`validate_auction`, lines 243-254); `contract_bid_made` is the index of the
run (0 = before any contract bid). -/
def check_doubles_run (contract_bid_made : Nat) :
    List String → Nat → Bool → Bool → Except AuctionErr Unit
  | [], _, _, _ => .ok ()
  | bid :: rest, pos, doubled, redoubled =>
    if bid = "X" then
      if doubled ∨ redoubled ∨ pos % 2 = 1 ∨ contract_bid_made = 0 then
        .error .doubleBidError
      else check_doubles_run contract_bid_made rest (pos + 1) true redoubled
    else if bid = "R" then
      if ¬doubled ∨ redoubled ∨ pos % 2 = 0 ∨ contract_bid_made = 0 then
        .error .redoubleBidError
      else check_doubles_run contract_bid_made rest (pos + 1) doubled true
    else check_doubles_run contract_bid_made rest (pos + 1) doubled redoubled

/-- The outer double/redouble loop over all runs. -/
def check_doubles : List (List String) → Nat → Except AuctionErr Unit
  | [], _ => .ok ()
  | run :: rest, idx =>
    match check_doubles_run idx run 0 false false with
    | .error e => .error e
    | .ok _ => check_doubles rest (idx + 1)

/-- `validate_auction` from `data_cleaning.py`: clean the auction, require the
first occurrence of `"P P P"` at string position ≥ 1 of the space-joined
cleaned auction to be exactly terminal, then check contract-bid monotonicity
and double/redouble legality. -/
def validate_auction (auction : String) : Except AuctionErr String :=
  if auction = "" then .error .missingAuctionError
  else
    let cleaned_bids := get_cleaned_bids auction
    let cleaned_auction := pyJoin " " cleaned_bids
    if pyFind cleaned_auction "P P P" 1 ≠ (cleaned_auction.length : Int) - 5 then
      .error .passError
    else
      match check_contract_bids (separate_bids cleaned_bids).1 (-1) with
      | .error e => .error e
      | .ok _ =>
        match check_doubles (separate_bids cleaned_bids).2 0 with
        | .error e => .error e
        | .ok _ => .ok cleaned_auction

/-! ## `validate_deal` (`data_cleaning.py`, lines 93-123) -/

/-- Python `list.index` (`none` models the `ValueError` on a missing
element). -/
def pyListIndex (l : List String) (x : String) : Option Nat :=
  match l with
  | [] => none
  | y :: rest => if y = x then some 0 else (pyListIndex rest x).map (· + 1)

/-- `deck[suit_pos].remove(card)` of `validate_deal`: remove the first
occurrence of `card` from row `suit_pos` of the deck.  A missing row is the
Python `IndexError` (uncaught); a missing card is the `ValueError` that the
source catches and re-raises as `CardError`. -/
def placeCard : List (List Char) → Nat → Char → Except BoardExc (List (List Char))
  | [], _, _ => .error .pyIndexError
  | row :: rest, 0, card =>
    if card ∈ row then .ok (row.erase card :: rest) else .error .cardError
  | row :: rest, suit_pos + 1, card =>
    match placeCard rest suit_pos card with
    | .error e => .error e
    | .ok rest2 => .ok (row :: rest2)

/-- The inner card loop of `validate_deal` over one suit string: removes each
card from the deck row `suit_pos` and collects the placed card strings
`SUITS[suit_pos] + card` in play order. -/
def placeSuit (deck : List (List Char)) (suit_pos : Nat) :
    List Char → Except BoardExc (List (List Char) × List String)
  | [] => .ok (deck, [])
  | card :: restCards =>
    match placeCard deck suit_pos card with
    | .error e => .error e
    | .ok deck2 =>
      match placeSuit deck2 suit_pos restCards with
      | .error e => .error e
      | .ok (deck3, placed) => .ok (deck3, String.mk [SUITS.getD suit_pos ' ', card] :: placed)

/-- The suit loop of `validate_deal` over one hand (suit strings in order,
`suit_pos` counting up).  The cards a hand contributes to its seat are
collected and appended to the seat in one step, which has the same result as
the source's per-card `append` (on an error the Python function never returns
its partially filled `player_hands`). -/
def placeHandAux (deck : List (List Char)) :
    List (List Char) → Nat → Except BoardExc (List (List Char) × List String)
  | [], _ => .ok (deck, [])
  | suit :: restSuits, suit_pos =>
    match placeSuit deck suit_pos suit with
    | .error e => .error e
    | .ok (deck2, placed1) =>
      match placeHandAux deck2 restSuits (suit_pos + 1) with
      | .error e => .error e
      | .ok (deck3, placed2) => .ok (deck3, placed1 ++ placed2)

/-- The hand loop of `validate_deal`: per hand, check the 13-card total, place
the cards, and append them to seat `(player_pos + player_offset) % 4`. -/
def processDealHands :
    List String → Nat → Nat → List (List Char) → List (List String) →
      Except BoardExc (List (List String))
  | [], _, _, _, player_hands => .ok player_hands
  | hand :: restHands, player_pos, offset, deck, player_hands =>
    let suits := (pySplit hand '.').map String.data
    if (suits.map List.length).sum ≠ 13 then .error .unbalancedDealError
    else
      match placeHandAux deck suits 0 with
      | .error e => .error e
      | .ok (deck2, placed) =>
        let target := (player_pos + offset) % 4
        processDealHands restHands (player_pos + 1) offset deck2
          (player_hands.set target (player_hands.getD target [] ++ placed))

/-- `validate_deal` from `data_cleaning.py`. -/
def validate_deal (deal : String) : Except BoardExc (List (List String)) :=
  match deal.data with
  | [] => .error .missingDealError
  | c0 :: _ =>
    match pyListIndex ORDER (String.mk [c0]) with
    | none => .error .pyValueError
    | some player_offset =>
      processDealHands (pySplit (String.mk (deal.data.drop 2)) ' ') 0 player_offset
        [RANKS, RANKS, RANKS, RANKS] [[], [], [], []]

/-- The 52-card deck as card strings, in the order `validate_deal` lays the
initial deck out (suit rows S,H,D,C, ranks A..2 within each row). -/
def FULL_DECK : List String :=
  (SUITS.take 4).flatMap (fun s => RANKS.map (fun r => String.mk [s, r]))

/-- The card strings remaining in a deck state, row `i` carrying suit
`SUITS[i]`, starting from row index `start`. -/
def deckCardsAux : List (List Char) → Nat → List String
  | [], _ => []
  | row :: rest, i => row.map (fun r => String.mk [SUITS.getD i ' ', r]) ++ deckCardsAux rest (i + 1)

/-- The card strings remaining in a deck state. -/
def deckCards (deck : List (List Char)) : List String :=
  deckCardsAux deck 0

/-! ## `determine_declarer_candidates` (`dds.py`, lines 336-353) -/

/-- The loop of `determine_declarer_candidates`: the dict mapping each suit
character to its set of declarer-candidate seats is modelled as a function
`Char → Finset Nat` (only the five suit keys are ever looked up); a seat's
partner is removed for a denomination when a contract bid in it is made by a
seat that is itself still a candidate while its partner also still is. -/
def determine_declarer_candidates_aux :
    List String → Nat → (Char → Finset Nat) → (Char → Finset Nat)
  | [], _, m => m
  | bid :: rest, bidder_index, m =>
    let suit := bid.data.getD 1 ' '
    let m2 :=
      if bid ∈ ORDERED_CONTRACT_BIDS ∧ bidder_index ∈ m suit ∧
          (bidder_index + 2) % 4 ∈ m suit
      then Function.update m suit ((m suit).erase ((bidder_index + 2) % 4))
      else m
    determine_declarer_candidates_aux rest ((bidder_index + 1) % 4) m2

/-- `determine_declarer_candidates` from `dds.py`. -/
def determine_declarer_candidates (auction : String) (bidstart_index : Nat) :
    Char → Finset Nat :=
  determine_declarer_candidates_aux (pySplit auction ' ') bidstart_index
    (fun _ => ({0, 1, 2, 3} : Finset Nat))

/-- The per-denomination candidate rule exactly as claim C5 words it
(spec-modelled, for comparison): remove the partner whenever a seat bids the
denomination and the partner is still eligible — with no condition on the
bidding seat's own eligibility. -/
def declarer_candidates_claim_aux (suit : Char) : List String → Nat → Finset Nat → Finset Nat
  | [], _, s => s
  | bid :: rest, seat, s =>
    let s2 :=
      if bid ∈ ORDERED_CONTRACT_BIDS ∧ bid.data.getD 1 ' ' = suit ∧ (seat + 2) % 4 ∈ s
      then s.erase ((seat + 2) % 4) else s
    declarer_candidates_claim_aux suit rest ((seat + 1) % 4) s2

/-- The claim's rule, per denomination, over a whole auction. -/
def declarer_candidates_claim (auction : String) (bidstart : Nat) (suit : Char) : Finset Nat :=
  declarer_candidates_claim_aux suit (pySplit auction ' ') (bidstart % 4) {0, 1, 2, 3}

/-- The amended per-denomination rule: remove the partner only when the
bidding seat *and* its partner are both still eligible. -/
def declarer_candidates_amended_aux (suit : Char) : List String → Nat → Finset Nat → Finset Nat
  | [], _, s => s
  | bid :: rest, seat, s =>
    let s2 :=
      if bid ∈ ORDERED_CONTRACT_BIDS ∧ bid.data.getD 1 ' ' = suit ∧
          seat ∈ s ∧ (seat + 2) % 4 ∈ s
      then s.erase ((seat + 2) % 4) else s
    declarer_candidates_amended_aux suit rest ((seat + 1) % 4) s2

/-- The amended rule, per denomination, over a whole auction. -/
def declarer_candidates_amended (auction : String) (bidstart : Nat) (suit : Char) : Finset Nat :=
  declarer_candidates_amended_aux suit (pySplit auction ' ') (bidstart % 4) {0, 1, 2, 3}

/-! ## The play validator (`data_cleaning.py`, lines 365-533)

`validate_play` deep-copies `hands` and then mutates only the copies.  To make
that observable, the list objects live in an explicit store (`Store`), the
caller passes the addresses of its four hand lists, and the copy allocates
four fresh addresses at the end of the store.  The returned store is the heap
the caller sees after the call, whether the function returns or raises. -/

/-- A heap of Python list objects; an address is an index. -/
abbrev Store := List (List String)

/-- `RANK_TO_VALUE` from `determine_trick_winner` (only ever applied to valid
rank characters). -/
def RANK_TO_VALUE (c : Char) : Int :=
  if c = 'T' then 10 else if c = 'J' then 11 else if c = 'Q' then 12
  else if c = 'K' then 13 else if c = 'A' then 14
  else ((c.toNat - 48 : Nat) : Int)

/-- The scan of `determine_trick_winner`. -/
def determine_trick_winner_aux (trump led_suit : String) (lead : Int) :
    List String → Nat → Int → Int → Int → Int
  | [], _, _, _, winning_player => winning_player
  | card :: rest, pos, highest_trump, highest_led, winning_player =>
    let c0 := String.mk [card.data.getD 0 ' ']
    let v := RANK_TO_VALUE (card.data.getD 1 ' ')
    if c0 = trump ∧ v > highest_trump then
      determine_trick_winner_aux trump led_suit lead rest (pos + 1) v highest_led
        ((lead + (pos : Int)) % 4)
    else if c0 = led_suit ∧ highest_trump = -1 ∧ v > highest_led then
      determine_trick_winner_aux trump led_suit lead rest (pos + 1) highest_trump v
        ((lead + (pos : Int)) % 4)
    else
      determine_trick_winner_aux trump led_suit lead rest (pos + 1) highest_trump highest_led
        winning_player

/-- `determine_trick_winner` from `data_cleaning.py`. -/
def determine_trick_winner (trick : List String) (trump : String) (lead : Int) : Int :=
  determine_trick_winner_aux trump (String.mk [(trick.getD 0 "").data.getD 0 ' ']) lead
    trick 0 (-1) (-1) (-1)

/-- The positional scan of `reneged` (positions after the first). -/
def reneged_aux (led_suit : Char) (hands : List (List String)) (lead : Int) :
    List String → Nat → Bool
  | [], _ => false
  | card :: rest, pos =>
    if card.data.getD 0 ' ' ≠ led_suit ∧
        led_suit ∈ (hands.getD ((lead + (pos : Int)) % 4).toNat []).map
          (fun c => c.data.getD 0 ' ') then
      true
    else reneged_aux led_suit hands lead rest (pos + 1)

/-- `reneged` from `data_cleaning.py`: `hands` is the holdings *after* the
trick was played; the membership test models
`led_suit in set(card[0] for card in hands[(lead+pos)%4])`. -/
def reneged (trick : List String) (hands : List (List String)) (lead : Int) : Bool :=
  match trick with
  | [] => false
  | first :: rest => reneged_aux (first.data.getD 0 ' ') hands lead rest 1

/-- The scan of `validate_dashes`. -/
def validate_dashes_aux : List String → Nat → Nat → Except PlayErr Nat
  | [], _, num_dashes => .ok num_dashes
  | card :: rest, pos, num_dashes =>
    if card = "-" then
      if pos = 0 then .error .firstCardIsDashError
      else validate_dashes_aux rest (pos + 1) (num_dashes + 1)
    else if num_dashes ≠ 0 then .error .cardAfterDashError
    else validate_dashes_aux rest (pos + 1) num_dashes

/-- `validate_dashes` from `data_cleaning.py`. -/
def validate_dashes (ordered_trick : List String) : Except PlayErr Nat :=
  validate_dashes_aux ordered_trick 0 0

/-- The invalid-play removal loop of `validate_play`
(`for play in plays: if play not in valid_plays: plays.remove(play)`), with
CPython semantics of removing from the list being iterated: `front` holds the
items before the iteration index; removing the current item shifts the list so
that the next item is skipped (examined never), which is why an invalid token
adjacent to another invalid token survives. -/
def pyFilterRemove (valid : List String) : List String → List String → List String
  | front, [] => front
  | front, x :: rest =>
    if x ∈ valid then pyFilterRemove valid (front ++ [x]) rest
    else
      let newFront := (front ++ [x]).erase x
      match rest with
      | [] => newFront
      | y :: rest2 => pyFilterRemove valid (newFront ++ [y]) rest2

/-- The mutable locals of the trick loop of `validate_play`. -/
structure PlaySt where
  store : Store
  ordered_play_sequence : String
  play_order_sequence : List Int
  tricks_played : Int
  tricks_won_by_declarer : Int
  trick_leader : Int
  trick : List String
  num_dashes : Nat

/-- The trick loop of `validate_play` (`for pos,card in enumerate(plays)`),
acting on the copied hand lists held in the store at `newAddrs`.  On an error
the store mutated so far is returned together with the raised exception. -/
def playLoop (newAddrs : List Nat) (lead_player declarer : Int) (trump : String) :
    List String → Nat → PlaySt → PlaySt × Option PlayErr
  | [], _, st => (st, none)
  | card :: rest, pos, st =>
    if st.num_dashes ≠ 0 then (st, some .multipleClaimError)
    else
      let seat := ((lead_player + (pos : Int)) % 4).toNat
      let addr := newAddrs.getD seat 0
      let hand := st.store.getD addr []
      if card ≠ "-" ∧ card ∉ hand then (st, some .playError)
      else
        let store2 := if card ≠ "-" then st.store.set addr (hand.erase card) else st.store
        let trick2 := st.trick ++ [card]
        if pos % 4 = 3 then
          let entries := (List.range 4).map (fun k =>
            let trick_pos : Int := (st.trick_leader - lead_player) + (k : Int)
            (trick2.getD (trick_pos % 4).toNat "", (lead_player + trick_pos) % 4))
          let ordered_trick := entries.map Prod.fst
          let opseq2 := entries.foldl
            (fun s e => if e.1 ≠ "-" then s ++ e.1 else s) st.ordered_play_sequence
          let porder2 := st.play_order_sequence ++
            (entries.filter (fun e => e.1 ≠ "-")).map Prod.snd
          let stFlush : PlaySt := { st with store := store2, ordered_play_sequence := opseq2, play_order_sequence := porder2, trick := trick2 }
          match validate_dashes ordered_trick with
          | .error e => (stFlush, some e)
          | .ok nd =>
            if reneged (ordered_trick.take (4 - nd))
                (newAddrs.map (fun a => store2.getD a [])) st.trick_leader then
              (stFlush, some .renegeError)
            else if nd = 0 then
              let tl2 := determine_trick_winner ordered_trick trump st.trick_leader
              playLoop newAddrs lead_player declarer trump rest (pos + 1)
                { store := store2, ordered_play_sequence := opseq2,
                  play_order_sequence := porder2,
                  tricks_played := st.tricks_played + 1,
                  tricks_won_by_declarer :=
                    if tl2 = declarer ∨ tl2 = (declarer + 2) % 4 then
                      st.tricks_won_by_declarer + 1
                    else st.tricks_won_by_declarer,
                  trick_leader := tl2, trick := [], num_dashes := 0 }
            else
              playLoop newAddrs lead_player declarer trump rest (pos + 1)
                { st with store := store2, ordered_play_sequence := opseq2, play_order_sequence := porder2, trick := [], num_dashes := nd }
        else
          playLoop newAddrs lead_player declarer trump rest (pos + 1)
            { st with store := store2, trick := trick2 }

/-- `validate_play` from `data_cleaning.py`, on the explicit store.  The
caller's hand lists live at `handAddrs`; `copy.deepcopy(hands)` allocates
fresh copies at the end of the store and rebinds the local `hands` to them,
so every subsequent `remove` hits only the new addresses.  `lead` is assumed
to be a seat name when non-empty (as the source's docstring assumes). -/
def validate_play_heap (play_sequence lead : String) (handAddrs : List Nat) (trump : String)
    (σ : Store) : Store × Except PlayErr (String × List Int × Int × Int) :=
  if play_sequence = "" ∨ lead = "" ∨ trump = "" then
    (σ, .error .missingPlaySequenceInfoError)
  else
    let newAddrs := (List.range handAddrs.length).map (fun i => σ.length + i)
    let σ2 := σ ++ handAddrs.map (fun a => σ.getD a [])
    let ps := pyReplace play_sequence "HTHQ" "HT HQ"
    let ps := pyReplace ps "--" "-"
    let plays0 := pySplit ps ' '
    let valid_plays := "-" :: (newAddrs.map (fun a => σ2.getD a [])).flatten
    let plays := pyFilterRemove valid_plays [] plays0
    if plays.length % 4 ≠ 0 then (σ2, .error .unbalancedPlaySequenceError)
    else
      let lead_player : Int := (((pyListIndex ORDER lead).getD 0 : Nat) : Int)
      let declarer := (lead_player - 1) % 4
      let r := playLoop newAddrs lead_player declarer trump plays 0
        ⟨σ2, "", [], 0, 0, lead_player, [], 0⟩
      match r.2 with
      | some e => (r.1.store, .error e)
      | none => (r.1.store, .ok (r.1.ordered_play_sequence, r.1.play_order_sequence,
          r.1.tricks_played, r.1.tricks_won_by_declarer))

/-- `validate_play` as the caller observes it: the caller's hand lists are the
store and their addresses are `0,...,len-1`. -/
def validate_play (play_sequence lead : String) (hands : List (List String)) (trump : String) :
    Except PlayErr (String × List Int × Int × Int) :=
  (validate_play_heap play_sequence lead (List.range hands.length) trump hands).2

/-! ## Reconciliation and derivation helpers (`data_cleaning.py`, lines 257-363) -/

/-- `ensure_non_contradiction` from `data_cleaning.py`; the generic
`ContradictionError` is the `Unit` error (each caller re-raises it as its own
`BoardError` kind). -/
def ensure_non_contradiction (value1 value2 : String) : Except Unit String :=
  if value2 ≠ "" then
    if value1 ≠ "" ∧ value1 ≠ value2 then .error () else .ok value2
  else .ok value1

/-- `normalize_contract` from `data_cleaning.py` (Python slicing semantics:
`contract[-2:]` of a shorter string is the whole string, `contract[:-2]` drops
the last two characters). -/
def normalize_contract (contract : String) : String :=
  if contract.data.map Char.toUpper = "PASS".data then "P"
  else
    let c1 :=
      if contract.data.drop (contract.data.length - 2) = ['X', 'X'] then
        String.mk (contract.data.take (contract.data.length - 2) ++ ['R'])
      else contract
    if (c1.data.drop 1).take 2 = ['N', 'T'] then
      String.mk (c1.data.take 2 ++ c1.data.drop 3)
    else c1

/-- The reverse scan of `find_contract_from_auction` (`double` is the
doubled-state collected on the way to the last contract bid). -/
def fcfa_aux : List String → String → String
  | [], _ => "P"
  | bid :: rest, double =>
    if bid = "R" then fcfa_aux rest "R"
    else if bid = "X" then fcfa_aux rest (if double ≠ "R" then "X" else double)
    else if bid ≠ "P" then bid ++ double
    else fcfa_aux rest double

/-- `find_contract_from_auction` from `data_cleaning.py`. -/
def find_contract_from_auction (auction : String) : String :=
  if auction = "" then "" else fcfa_aux (pySplit auction ' ').reverse ""

/-- The forward scan of `find_declarer_from_auction`: `m` maps each suit to
the first bidder of that suit per side (`-1` when none yet; the pair is
indexed by `bidder % 2`), and the winning bidder/trump are tracked. -/
def fdfa_aux : List String → Nat → (Char → Int × Int) → Int → String →
    ((Char → Int × Int) × Int × String)
  | [], _, m, winning_bidder, winning_trump => (m, winning_bidder, winning_trump)
  | bid :: rest, current_bidder, m, winning_bidder, winning_trump =>
    if bid ∈ ORDERED_CONTRACT_BIDS then
      let suit := bid.data.getD 1 ' '
      let entry := m suit
      let sideVal := if current_bidder % 2 = 0 then entry.1 else entry.2
      let m2 :=
        if sideVal = -1 then
          Function.update m suit
            (if current_bidder % 2 = 0 then ((current_bidder : Int), entry.2)
             else (entry.1, (current_bidder : Int)))
        else m
      fdfa_aux rest ((current_bidder + 1) % 4) m2 (current_bidder : Int) (String.mk [suit])
    else fdfa_aux rest ((current_bidder + 1) % 4) m winning_bidder winning_trump

/-- `find_declarer_from_auction` from `data_cleaning.py`.  The callers pass a
`bidstart` that is a seat name whenever it is non-empty, so `ORDER.index`
succeeds; when a winning trump exists its side's first-bidder entry is ≥ 0,
so the final `ORDER[...]` lookup is in range. -/
def find_declarer_from_auction (auction bidstart : String) : String :=
  if auction = "" ∨ bidstart = "" then ""
  else
    let r := fdfa_aux (pySplit auction ' ') ((pyListIndex ORDER bidstart).getD 0)
      (fun _ => (-1, -1)) (-1) ""
    if r.2.2 = "" then ""
    else
      let entry := r.1 (r.2.2.data.getD 0 ' ')
      let idx := if r.2.1 % 2 = 0 then entry.1 else entry.2
      ORDER.getD idx.toNat ""

/-- `find_lead_from_declarer` from `data_cleaning.py` (its callers only pass a
seat name, `"P"` or the empty string). -/
def find_lead_from_declarer (declarer : String) : String :=
  if declarer = "" then ""
  else if declarer = "P" then "P"
  else ORDER.getD (((pyListIndex ORDER declarer).getD 0 + 1) % 4) ""

/-- `compute_claim` from `data_cleaning.py`.  The database stores `result` as
an integer (0..13 or 14), so `int(result)` is the identity and the
`ValueError → -1` branch is unreachable for these inputs. -/
def compute_claim (result number_of_tricks_played number_of_declarer_tricks : Int) :
    Except BoardExc Int :=
  if result < 0 ∨ result > 13 then .ok (-1)
  else if result < number_of_declarer_tricks ∨
      result - number_of_declarer_tricks > 13 - number_of_tricks_played then
    .error .claimError
  else .ok result

/-! ## `compute_year` (`data_cleaning.py`, lines 557-578) -/

/-- The date regular expression of `compute_year`,
`re.match(r"^(\d{4})\.", date)`: four leading digits followed by a dot. -/
def matchDateYear (date : String) : Option (List Char) :=
  match date.data with
  | d1 :: d2 :: d3 :: d4 :: dot :: _ =>
    if d1.isDigit ∧ d2.isDigit ∧ d3.isDigit ∧ d4.isDigit ∧ dot = '.' then
      some [d1, d2, d3, d4]
    else none
  | _ => none

/-- The four character classes of the event regular expression
`[1-2][0,9][0-2,5-9][0-9]` (note the literal commas in the middle classes). -/
def yearWindowMatch (c0 c1 c2 c3 : Char) : Prop :=
  (c0 = '1' ∨ c0 = '2') ∧ (c1 = '0' ∨ c1 = ',' ∨ c1 = '9') ∧
    (c2 = '0' ∨ c2 = '1' ∨ c2 = '2' ∨ c2 = ',' ∨ (53 ≤ c2.toNat ∧ c2.toNat ≤ 57)) ∧
    c3.isDigit = true

instance (c0 c1 c2 c3 : Char) : Decidable (yearWindowMatch c0 c1 c2 c3) := by
  unfold yearWindowMatch; infer_instance

/-- The event regular expression of `compute_year`,
`re.match(r".*([1-2][0,9][0-2,5-9][0-9])", event)`: the greedy `.*` makes the
group match at the last possible start position. -/
def matchEventYear (event : String) : Option (List Char) :=
  let cs := event.data
  match ((List.range cs.length).filter (fun i =>
      decide (i + 4 ≤ cs.length ∧ yearWindowMatch (cs.getD i ' ') (cs.getD (i + 1) ' ')
        (cs.getD (i + 2) ' ') (cs.getD (i + 3) ' ')))).getLast? with
  | some i => some [cs.getD i ' ', cs.getD (i + 1) ' ', cs.getD (i + 2) ' ', cs.getD (i + 3) ' ']
  | none => none

/-- Python `int()` on a matched group: succeeds exactly when the group is all
digits (the groups here are four characters from the classes above, so the
only failure mode is a comma in the group), otherwise `ValueError`. -/
def pyInt (cs : List Char) : Except BoardExc Int :=
  if cs ≠ [] ∧ cs.all Char.isDigit then
    .ok ((cs.foldl (fun acc c => acc * 10 + (c.toNat - 48)) 0 : Nat) : Int)
  else .error .pyValueError

/-- The event half of `compute_year`'s match loop. -/
def compute_year_event (event : String) : Except BoardExc Int :=
  match matchEventYear event with
  | some g =>
    match pyInt g with
    | .error e => .error e
    | .ok y => if 1955 ≤ y ∧ y ≤ 2016 then .ok y else .ok 0
  | none => .ok 0

/-- `compute_year` from `data_cleaning.py`: the date regex is checked first,
then the event regex, and `0` is returned when neither yields an in-range
year.  `int()` on a matched event group containing a comma raises an uncaught
`ValueError`. -/
def compute_year (event date : String) : Except BoardExc Int :=
  match matchDateYear date with
  | some g =>
    match pyInt g with
    | .error e => .error e
    | .ok y => if 1955 ≤ y ∧ y ≤ 2016 then .ok y else compute_year_event event
  | none => compute_year_event event

/-! ## `normalize_name` (`data_cleaning.py`, lines 621-676)

Python `collections.Counter` is modelled as an insertion-ordered association
list with positive counts; `&` is count-wise minimum keeping the first
operand's key order, `-` is truncated difference keeping positive entries,
`elements()` repeats each key by its count in key order, and `c[k] += 1`
appends a fresh key at the end. -/

/-- An insertion-ordered counter. -/
abbrev CounterL := List (String × Nat)

/-- `c[x] += k` on a counter. -/
def counterAdd (c : CounterL) (x : String) (k : Nat) : CounterL :=
  match c with
  | [] => [(x, k)]
  | (y, n) :: rest => if y = x then (y, n + k) :: rest else (y, n) :: counterAdd rest x k

/-- `Counter(l)`. -/
def counterOf (l : List String) : CounterL :=
  l.foldl (fun c x => counterAdd c x 1) []

/-- `c[x]` (0 for a missing key). -/
def counterCount (c : CounterL) (x : String) : Nat :=
  match c.lookup x with
  | some n => n
  | none => 0

/-- `Counter.__and__`: count-wise minimum. -/
def counterInter (a b : CounterL) : CounterL :=
  a.filterMap (fun p =>
    let m := min p.2 (counterCount b p.1)
    if m = 0 then none else some (p.1, m))

/-- `Counter.__sub__`: truncated difference. -/
def counterSub (a b : CounterL) : CounterL :=
  a.filterMap (fun p =>
    let m := p.2 - counterCount b p.1
    if m = 0 then none else some (p.1, m))

/-- `Counter.elements()`. -/
def counterElements (c : CounterL) : List String :=
  c.flatMap (fun p => List.replicate p.2 p.1)

/-- `WbfInfo` from `defs.py`; `mp`/`pp` are floats used only through `str()`,
so they are carried as their rendered strings. -/
structure WbfInfo where
  mp : String
  pp : String
  wbf_names : List String
  wbf_initials : List String

/-- The component split at the top of `normalize_name`: two-character
components ending in `.` are initials (upper-cased first letter), everything
else is an upper-cased name.  Returns `(initials, names)`. -/
def splitNameComponents (name : String) : List String × List String :=
  (pySplit name ' ').foldl
    (fun acc comp =>
      if comp.data.length = 2 ∧ comp.data.getD 1 ' ' = '.' then
        (acc.1 ++ [String.mk [(comp.data.getD 0 ' ').toUpper]], acc.2)
      else (acc.1, acc.2 ++ [String.mk (comp.data.map Char.toUpper)]))
    ([], [])

/-- The first available initial that is a prefix of the name, if any. -/
def findPrefixInitial : List String → String → Option String
  | [], _ => none
  | ini :: more, nm => if ini.data.isPrefixOf nm.data then some ini else findPrefixInitial more nm

/-- The initial-to-unmatched-name loop of `normalize_name`: for each unmatched
roster name (in `elements()` order) the first available initial that prefixes
it is consumed.  State: matched-initial count, matched-name counter,
matched-initial counter, available initials. -/
def nameMatchLoop :
    List String → Nat → CounterL → CounterL → List String → (Nat × CounterL × CounterL × List String)
  | [], nmi, mn, mi, avail => (nmi, mn, mi, avail)
  | nm :: rest, nmi, mn, mi, avail =>
    match findPrefixInitial avail nm with
    | some ini => nameMatchLoop rest (nmi + 1) (counterAdd mn nm 1) (counterAdd mi ini 1)
        (avail.erase ini)
    | none => nameMatchLoop rest nmi mn mi avail

/-- The per-candidate match tuple of `normalize_name`: (matched names,
matched initials, −unmatched names, −unmatched initials).  The matched-name
*count* is taken before the initial loop, exactly as in the source. -/
def candidate_tuple (names initials : List String) (info : WbfInfo) :
    Int × Int × Int × Int :=
  let matched_names := counterInter (counterOf info.wbf_names) (counterOf names)
  let matched_initials := counterInter (counterOf info.wbf_initials) (counterOf initials)
  let number_of_matched_names := (counterElements matched_names).length
  let available_initials := counterElements (counterSub (counterOf initials) matched_initials)
  let r := nameMatchLoop (counterElements (counterSub (counterOf info.wbf_names) matched_names))
    (counterElements matched_initials).length matched_names matched_initials available_initials
  let number_of_unmatched_names :=
    (counterElements (counterSub (counterOf info.wbf_names) r.2.1)).length
  let number_of_unmatched_initials :=
    (counterElements (counterSub (counterOf info.wbf_initials) r.2.2.1)).length
  ((number_of_matched_names : Int), (r.1 : Int),
    -(number_of_unmatched_names : Int), -(number_of_unmatched_initials : Int))

/-- Python tuple comparison (`>`), lexicographic on the four integers. -/
def tupleGtB (a b : Int × Int × Int × Int) : Bool :=
  if a.1 ≠ b.1 then decide (a.1 > b.1)
  else if a.2.1 ≠ b.2.1 then decide (a.2.1 > b.2.1)
  else if a.2.2.1 ≠ b.2.2.1 then decide (a.2.2.1 > b.2.2.1)
  else decide (a.2.2.2 > b.2.2.2)

/-- `normalize_name` from `data_cleaning.py`.  `max()` over the candidate dict
raises `ValueError` when `wbf_data` is empty; the roster names with appended
points are assumed pairwise distinct (as dict keys they would otherwise be
collapsed). -/
def normalize_name (name : String) (wbf_data : List (String × WbfInfo)) :
    Except BoardExc String :=
  let parsed := splitNameComponents name
  let candidates := wbf_data.map (fun p =>
    (p.1 ++ "," ++ p.2.mp ++ "," ++ p.2.pp, candidate_tuple parsed.2 parsed.1 p.2))
  match candidates with
  | [] => .error .pyValueError
  | c0 :: rest =>
    let best_match := rest.foldl (fun acc c => if tupleGtB c.2 acc then c.2 else acc) c0.2
    if best_match.1 = 0 then .ok ",-1,-1"
    else
      let matching_names := (candidates.filter (fun c => c.2 = best_match)).map Prod.fst
      if matching_names.length ≠ 1 then .ok ",-1,-1"
      else .ok (matching_names.getD 0 "")

/-! ## `clean_board` and `get_clean_boards` (`data_cleaning.py`, lines 39-91, 699-808) -/

/-- `str(exc)` for the exceptions `get_clean_boards` tallies (the
`BoardError` docstrings); the two Python builtins are never tallied because
they are not caught. -/
def BoardExc.toStr : BoardExc → String
  | .missingDealError => "Missing deal."
  | .unbalancedDealError => "Deal had a hand that did not have 13 cards."
  | .cardError => "A player had an invalid card in the deal, or a card appeared twice."
  | .missingNamesError => "All names are missing."
  | .claimError => "The declarer claimed fewer tricks than they had already won, or more tricks than there were remaining."
  | .contractContradictionError => "Contract differs from the contract deducible from the auction."
  | .declarerContradictionError => "Declarer differs from the declarer deducible from the auction."
  | .leadContradictionError => "Lead differs from the lead deducible from the declarer."
  | .passContradictionError => "Contract is pass, play sequence is non-empty."
  | .pyValueError => "ValueError"
  | .pyIndexError => "IndexError"

/-- The board dictionary built by `clean_board`. -/
structure Board where
  names : List String
  deal : String
  bidstart : String
  auction : String
  contract : String
  declarer : String
  lead : String
  play : String
  play_order : List Int
  claim : Int
  NS_vulnerable : Bool
  EW_vulnerable : Bool
  year : Int
deriving DecidableEq, Repr

/-- `clean_board` from `data_cleaning.py`: returns the board together with the
auction-defect and play-defect strings (empty when no defect), or raises a
`BoardError` (or, through `compute_year`, an uncaught `ValueError`). -/
def clean_board (event date northname eastname southname westname deal vulnerable dealer
    bidstart auction contract declarer lead play : String) (result : Int)
    (wbf_data : List (String × WbfInfo)) : Except BoardExc (Board × String × String) := do
  if northname = "" ∧ eastname = "" ∧ southname = "" ∧ westname = "" then
    throw .missingNamesError
  let n0 ← normalize_name northname wbf_data
  let n1 ← normalize_name eastname wbf_data
  let n2 ← normalize_name southname wbf_data
  let n3 ← normalize_name westname wbf_data
  let player_hands ← validate_deal deal
  let bidstart := if bidstart ∈ ORDER then bidstart else ""
  let bs := if bidstart ≠ "" then bidstart else dealer
  let ar : String × String :=
    if bs ≠ "" then
      match validate_auction auction with
      | .ok a => (a, "")
      | .error e => ("", e.toStr)
    else ("", "")
  let auctionClean := ar.1
  let auction_error := ar.2
  let contractV ←
    match ensure_non_contradiction (normalize_contract contract)
        (find_contract_from_auction auctionClean) with
    | .ok v => pure v
    | .error _ => throw .contractContradictionError
  let declarer := if declarer ∈ ORDER then declarer else ""
  let declarerV ←
    match ensure_non_contradiction declarer
        (let d := find_declarer_from_auction auctionClean bs
         if d ≠ "" then d else "P") with
    | .ok v => pure v
    | .error _ => throw .declarerContradictionError
  let leadV ←
    match ensure_non_contradiction lead (find_lead_from_declarer declarerV) with
    | .ok v => pure v
    | .error _ => throw .leadContradictionError
  let pr : String × List Int × Int × Int × String ←
    if contractV ≠ "P" then
      match contractV.data[1]? with
      | none => throw .pyIndexError
      | some trump =>
        match validate_play play lead player_hands (String.mk [trump]) with
        | .ok (p, po, tp, dt) => pure (p, po, tp, dt, "")
        | .error e => pure ("", [], -1, -1, e.toStr)
    else if play ≠ "" then throw .passContradictionError
    else pure ("", [], -1, -1, "")
  let playV := pr.1
  let play_order := pr.2.1
  let number_of_tricks_played := pr.2.2.1
  let number_of_declarer_tricks := pr.2.2.2.1
  let play_error := pr.2.2.2.2
  let claim ←
    if play_error = "" ∧ playV.length ≠ 104 ∧ contractV ≠ "P" then
      compute_claim result number_of_tricks_played number_of_declarer_tricks
    else pure (-1)
  let vulnerability :=
    ((([("All]", "All"), ("NZ", "NS")] : List (String × String)).lookup vulnerable).getD
      vulnerable)
  let ns := vulnerability = "NS" ∨ vulnerability = "All"
  let ew := vulnerability = "EW" ∨ vulnerability = "All"
  let year ← compute_year event date
  let board : Board :=
    { names := [n0, n1, n2, n3]
      deal := deal
      bidstart := bs
      auction := auctionClean
      contract := contractV
      declarer := declarerV
      lead := leadV
      play := playV
      play_order := play_order
      claim := claim
      NS_vulnerable := ns
      EW_vulnerable := ew
      year := year }
  return (board, auction_error, play_error)

/-- One database row of the `bridgedeals` table, in the `SELECT` column
order. -/
structure DbRow where
  event : String
  date : String
  northname : String
  eastname : String
  southname : String
  westname : String
  deal : String
  vulnerable : String
  dealer : String
  bidstart : String
  auction : String
  contract : String
  declarer : String
  lead : String
  play : String
  result : Int

/-- `clean_board` applied to a row. -/
def clean_board_row (row : DbRow) (wbf_data : List (String × WbfInfo)) :
    Except BoardExc (Board × String × String) :=
  clean_board row.event row.date row.northname row.eastname row.southname row.westname
    row.deal row.vulnerable row.dealer row.bidstart row.auction row.contract row.declarer
    row.lead row.play row.result wbf_data

/-- The row loop of `get_clean_boards` (the sqlite cursor is modelled by the
given list of rows): `BoardError`s are caught and tallied per message; any
other exception propagates and aborts the batch. -/
def get_clean_boards (rows : List DbRow) (wbf_data : List (String × WbfInfo)) :
    Except BoardExc
      (List Board × List (String × Nat) × List (String × Nat) × List (String × Nat)) := do
  let mut boards : List Board := []
  let mut board_errors : List (String × Nat) := []
  let mut auction_errors : List (String × Nat) := []
  let mut play_errors : List (String × Nat) := []
  for row in rows do
    match clean_board_row row wbf_data with
    | .ok (board, auction_error, play_error) =>
      auction_errors := counterAdd auction_errors auction_error 1
      play_errors := counterAdd play_errors play_error 1
      boards := boards ++ [board]
    | .error e =>
      if e.isBoardError then
        board_errors := counterAdd board_errors e.toStr 1
      else
        throw e
  return (boards, board_errors, auction_errors, play_errors)

/-! ## Test fixtures from `data_cleaning_tests.py` -/

/-- The `wbf_info` fixture of `test_normalize_name` (`mp`/`pp` rendered:
`str(0)` is `"0"`). -/
def wbfTestData : List (String × WbfInfo) :=
  [("John Smith", ⟨"0", "0", ["JOHN", "SMITH"], []⟩),
   ("John (Smith) Doyle", ⟨"0", "0", ["JOHN", "SMITH", "DOYLE"], []⟩),
   ("Liam A. R. Smith", ⟨"0", "0", ["LIAM", "SMITH"], ["A", "R"]⟩),
   ("Liam \x27Ashton\x27 R. Smith", ⟨"0", "0", ["LIAM", "ASHTON", "SMITH"], ["R"]⟩),
   ("Jeff K. M. Q. Doyle", ⟨"0", "0", ["JEFF", "DOYLE"], ["K", "M", "Q"]⟩),
   ("Jeff K. L. Doyle", ⟨"0", "0", ["JEFF", "DOYLE"], ["K", "L"]⟩)]

/-- The `wbf_info` fixture of `test_clean_board`. -/
def wbfTestDataCB : List (String × WbfInfo) :=
  [("NORTH", ⟨"1", "1", ["NORTH"], []⟩), ("EAST", ⟨"2", "2", ["EAST"], []⟩),
   ("SOUTH", ⟨"3", "3", ["SOUTH"], []⟩), ("WEST", ⟨"4", "4", ["WEST"], []⟩)]

/-- The valid deal used throughout `test_clean_board`. -/
def testDeal : String :=
  "N:AK75.54.987653.A Q.AT983.42.JT753 642.KQJ7.AQJ.962 JT983.62.KT.KQ84"

/-- The board dictionary `test_clean_board` expects for its valid fixture. -/
def testBoardExpected : Board :=
  { names := ["NORTH,1,1", "EAST,2,2", "SOUTH,3,3", "WEST,4,4"]
    deal := testDeal
    bidstart := "N"
    auction := "1D 1H X P P 2C 2D 3C 3D P P P"
    contract := "3D"
    declarer := "N"
    lead := "E"
    play := "SQS2S3SKS5"
    play_order := [1, 2, 3, 0, 0]
    claim := 9
    NS_vulnerable := true
    EW_vulnerable := true
    year := 2000 }

/-! ## Sanity checks against the repository's own unit tests -/

example : get_cleaned_bids "P 1C 2H 3s 4D X xX 7N p P P" =
    ["P", "1C", "2H", "3S", "4D", "X", "R", "7N", "P", "P", "P"] := by decide
example : get_cleaned_bids "1C! =0=6NT =0=7N =0=X XX! P! P P" =
    ["1C", "6N", "7N", "X", "R", "P", "P", "P"] := by decide
example : get_cleaned_bids "PASS PAS S3 DBL REDBL 4NT XXX AP" =
    ["P", "P", "3S", "X", "R", "4N", "X", "R", "P", "P", "P"] := by decide
example : get_cleaned_bids "1NTPASS P XPASS 2H2NT X XXPASS PASS5S XXX 7NT" =
    ["1N", "P", "P", "X", "P", "2H", "2N", "X", "R", "P", "P", "5S", "X", "R", "7N"] := by decide
example : get_cleaned_bids "1NT! =6= ?? !! =:= P =9= 34 Pc P ! 1.0 $1 % P" =
    ["1N", "P", "P", "P"] := by decide
example : get_cleaned_bids "" = [] := by decide

example : validate_deal "N:AK75.54.987653.A Q.AT983.42.JT753 642.KQJ7.AQJ.962 JT983.62.KT.KQ84" =
    .ok [
      ["SA", "SK", "S7", "S5", "H5", "H4", "D9", "D8", "D7", "D6", "D5", "D3", "CA"],
      ["SQ", "HA", "HT", "H9", "H8", "H3", "D4", "D2", "CJ", "CT", "C7", "C5", "C3"],
      ["S6", "S4", "S2", "HK", "HQ", "HJ", "H7", "DA", "DQ", "DJ", "C9", "C6", "C2"],
      ["SJ", "ST", "S9", "S8", "S3", "H6", "H2", "DK", "DT", "CK", "CQ", "C8", "C4"]] := by decide
example : validate_deal "" = .error .missingDealError := by decide
example : validate_deal
    "N:AK75.54.987653. Q.AT983.42.AJT753 642.KQJ7.AQJ.962 JT983.62.KT.KQ84" =
    .error .unbalancedDealError := by decide
example : validate_deal
    "N:AK75.54.987653.L Q.AT983.42.JT753 642.KQJ7.AQJ.962 JT983.62.KT.KQ84" =
    .error .cardError := by decide
example : validate_deal
    "N:AK75.542.987653. Q.AT983.42.JT753 642.KQJ7.AQJ.962 JT983.62.KT.KQ84" =
    .error .cardError := by decide

example :
    validate_play "H7 H6 H3 % H8 C6 CT CA C2 C8 PBN HT H5 H2 CQ CK S3 C3 !" "N"
      [["S4", "S2", "H7", "DK", "DT", "D9", "D8", "D5", "D4", "D3", "CQ", "C8", "C6"],
       ["SA", "SK", "SQ", "S9", "S5", "HK", "HQ", "HT", "H6", "D2", "CK", "CT", "C7"],
       ["SJ", "ST", "S8", "S7", "S6", "S3", "H9", "H5", "H3", "DQ", "DJ", "D6", "CA"],
       ["HA", "HJ", "H8", "H4", "H2", "DA", "D7", "CJ", "C9", "C5", "C4", "C3", "C2"]] "C" =
    .ok ("H7H6H3H8C2C6CTCAH5H2C8HTCQCKS3C3",
      [0, 1, 2, 3, 3, 0, 1, 2, 2, 3, 0, 1, 0, 1, 2, 3], 4, 2) := by decide

example :
    validate_play "H7 H6 H3 H8 C6 CT CA C2 C8 HT H5 H2 CQ -- - --" "N"
      [["S4", "S2", "H7", "DK", "DT", "D9", "D8", "D5", "D4", "D3", "CQ", "C8", "C6"],
       ["SA", "SK", "SQ", "S9", "S5", "HK", "HQ", "HT", "H6", "D2", "CK", "CT", "C7"],
       ["SJ", "ST", "S8", "S7", "S6", "S3", "H9", "H5", "H3", "DQ", "DJ", "D6", "CA"],
       ["HA", "HJ", "H8", "H4", "H2", "DA", "D7", "CJ", "C9", "C5", "C4", "C3", "C2"]] "C" =
    .ok ("H7H6H3H8C2C6CTCAH5H2C8HTCQ", [0, 1, 2, 3, 3, 0, 1, 2, 2, 3, 0, 1, 0], 3, 1) := by
  decide

example :
    validate_play "H3 HTHQ H2" "S" [["HQ"], ["H2"], ["H3"], ["HT"]] "H" =
    .ok ("H3HTHQH2", [2, 3, 0, 1], 1, 0) := by decide

example :
    validate_play "H7 H6 H3 H8 C6 CT CA C2 C8 HT H5 H2 CQ CK S3" "N"
      [["S4", "S2", "H7", "DK", "DT", "D9", "D8", "D5", "D4", "D3", "CQ", "C8", "C6"],
       ["SA", "SK", "SQ", "S9", "S5", "HK", "HQ", "HT", "H6", "D2", "CK", "CT", "C7"],
       ["SJ", "ST", "S8", "S7", "S6", "S3", "H9", "H5", "H3", "DQ", "DJ", "D6", "CA"],
       ["HA", "HJ", "H8", "H4", "H2", "DA", "D7", "CJ", "C9", "C5", "C4", "C3", "C2"]] "C" =
    .error .unbalancedPlaySequenceError := by decide

example :
    validate_play "H7 H6 H3 H8 C6 CT CA C2 C8 HT H5 H2 CQ CK S3 HJ" "N"
      [["S4", "S2", "H7", "DK", "DT", "D9", "D8", "D5", "D4", "D3", "CQ", "C8", "C6"],
       ["SA", "SK", "SQ", "S9", "S5", "HK", "HQ", "HT", "H6", "D2", "CK", "CT", "C7"],
       ["SJ", "ST", "S8", "S7", "S6", "S3", "H9", "H5", "H3", "DQ", "DJ", "D6", "CA"],
       ["HA", "HJ", "H8", "H4", "H2", "DA", "D7", "CJ", "C9", "C5", "C4", "C3", "C2"]] "C" =
    .error .renegeError := by decide

example :
    validate_play "H7 H6 H3 H8 C6 CT CA C2 C8 HT H5 H2 CQ CK S3 C7" "N"
      [["S4", "S2", "H7", "DK", "DT", "D9", "D8", "D5", "D4", "D3", "CQ", "C8", "C6"],
       ["SA", "SK", "SQ", "S9", "S5", "HK", "HQ", "HT", "H6", "D2", "CK", "CT", "C7"],
       ["SJ", "ST", "S8", "S7", "S6", "S3", "H9", "H5", "H3", "DQ", "DJ", "D6", "CA"],
       ["HA", "HJ", "H8", "H4", "H2", "DA", "D7", "CJ", "C9", "C5", "C4", "C3", "C2"]] "C" =
    .error .playError := by decide

example :
    validate_play "H7 H6 H3 H8 C6 CT CA C2 C8 HT H5 H2 CQ CK S3 C2" "N"
      [["S4", "S2", "H7", "DK", "DT", "D9", "D8", "D5", "D4", "D3", "CQ", "C8", "C6"],
       ["SA", "SK", "SQ", "S9", "S5", "HK", "HQ", "HT", "H6", "D2", "CK", "CT", "C7"],
       ["SJ", "ST", "S8", "S7", "S6", "S3", "H9", "H5", "H3", "DQ", "DJ", "D6", "CA"],
       ["HA", "HJ", "H8", "H4", "H2", "DA", "D7", "CJ", "C9", "C5", "C4", "C3", "C2"]] "C" =
    .error .playError := by decide

example :
    validate_play "H7 H6 H3 H8 C6 CT CA C2 C8 HT H5 H2 CQ - S3 -" "N"
      [["S4", "S2", "H7", "DK", "DT", "D9", "D8", "D5", "D4", "D3", "CQ", "C8", "C6"],
       ["SA", "SK", "SQ", "S9", "S5", "HK", "HQ", "HT", "H6", "D2", "CK", "CT", "C7"],
       ["SJ", "ST", "S8", "S7", "S6", "S3", "H9", "H5", "H3", "DQ", "DJ", "D6", "CA"],
       ["HA", "HJ", "H8", "H4", "H2", "DA", "D7", "CJ", "C9", "C5", "C4", "C3", "C2"]] "C" =
    .error .cardAfterDashError := by decide

example :
    validate_play "H7 H6 H3 H8 C6 CT CA C2 C8 HT H5 H2 - CK S3 C3" "N"
      [["S4", "S2", "H7", "DK", "DT", "D9", "D8", "D5", "D4", "D3", "CQ", "C8", "C6"],
       ["SA", "SK", "SQ", "S9", "S5", "HK", "HQ", "HT", "H6", "D2", "CK", "CT", "C7"],
       ["SJ", "ST", "S8", "S7", "S6", "S3", "H9", "H5", "H3", "DQ", "DJ", "D6", "CA"],
       ["HA", "HJ", "H8", "H4", "H2", "DA", "D7", "CJ", "C9", "C5", "C4", "C3", "C2"]] "C" =
    .error .firstCardIsDashError := by decide

example :
    validate_play "H7 - - - C6 CT CA C2 C8 HT H5 H2 CQ CK S3 C2" "N"
      [["S4", "S2", "H7", "DK", "DT", "D9", "D8", "D5", "D4", "D3", "CQ", "C8", "C6"],
       ["SA", "SK", "SQ", "S9", "S5", "HK", "HQ", "HT", "H6", "D2", "CK", "CT", "C7"],
       ["SJ", "ST", "S8", "S7", "S6", "S3", "H9", "H5", "H3", "DQ", "DJ", "D6", "CA"],
       ["HA", "HJ", "H8", "H4", "H2", "DA", "D7", "CJ", "C9", "C5", "C4", "C3", "C2"]] "C" =
    .error .multipleClaimError := by decide

example : determine_trick_winner ["DA", "D3", "D2", "C2"] "C" 0 = 3 := by decide
example : determine_trick_winner ["DA", "D3", "D2", "C2"] "S" 2 = 2 := by decide
example : determine_trick_winner ["C2", "C5", "CA", "CK"] "D" 0 = 2 := by decide
example : determine_trick_winner ["S3", "S5", "C3", "CA"] "S" 1 = 2 := by decide
example : determine_trick_winner ["SK", "SQ", "ST", "DT"] "S" 1 = 1 := by decide
example : determine_trick_winner ["DJ", "DK", "D2", "DQ"] "D" 3 = 0 := by decide

example :
    reneged ["SK", "DK", "S3", "CT"]
      [["DQ", "DA"], ["D2", "D3"], ["S2", "CA"], ["CQ", "CJ"]] 1 = true := by decide
example :
    reneged ["HA", "D2", "D3"]
      [["C3", "C2"], ["HT", "D5"], ["HJ", "D4"], ["HK", "HQ"]] 0 = true := by decide
example :
    reneged ["DA", "D2"]
      [["C2", "C3"], ["DJ", "D4"], ["S2", "S3"], ["DQ", "DK"]] 3 = false := by decide

example : validate_auction "P P P 1N X R 2N P P P" = .ok "P P P 1N X R 2N P P P" := by decide
example : validate_auction "1C 2S 3H P P P 4H 5C P P P" = .error .passError := by decide
example : validate_auction "P P P 6H 7N P P" = .error .passError := by decide
example : validate_auction "1C 2S 2H P P P" = .error .contractBidError := by decide
example : validate_auction "4H P P 4H X R P P P" = .error .contractBidError := by decide
example : validate_auction "P P X 1C 7N P P P" = .error .doubleBidError := by decide
example : validate_auction "P P P R 1C 7N P P P" = .error .redoubleBidError := by decide
example : validate_auction "1C P X P P P" = .error .doubleBidError := by decide
example : validate_auction "3N X P R P P P" = .error .redoubleBidError := by decide
example : validate_auction "7C X P X P P P" = .error .doubleBidError := by decide
example : validate_auction "7C X R X P P P" = .error .doubleBidError := by decide
example : validate_auction "7C X R P R P P P" = .error .redoubleBidError := by decide
example : validate_auction "7C P R P P P" = .error .redoubleBidError := by decide
example : validate_auction "" = .error .missingAuctionError := by decide

example : compute_undertrick_points 4 "X" true 1988 = -1100 := by decide
example : compute_undertrick_points 4 "X" false 1987 = -700 := by decide
example : compute_undertrick_points 6 "R" false 1988 = -2800 := by decide
example : compute_overtrick_points 4 "C" "R" true = 1600 := by decide
example : compute_bonus_points 6 12 120 "" true = 1250 := by decide
example : compute_contract_points 3 "N" "R" = 400 := by decide
example : compute_score "1H" 9 false 0 = some 140 := by decide
example : compute_score "1N" 9 true 0 = some 150 := by decide
example : compute_score "3C" 9 true 0 = some 110 := by decide

example : ensure_non_contradiction "0" "0" = .ok "0" := by decide
example : ensure_non_contradiction "" "" = .ok "" := by decide
example : ensure_non_contradiction "0" "" = .ok "0" := by decide
example : ensure_non_contradiction "" "0" = .ok "0" := by decide
example : ensure_non_contradiction "0" "1" = .error () := by decide

example : normalize_contract "Pass" = "P" := by decide
example : normalize_contract "1NT" = "1N" := by decide
example : normalize_contract "5CXX" = "5CR" := by decide
example : normalize_contract "3D" = "3D" := by decide
example : normalize_contract "3SX" = "3SX" := by decide
example : normalize_contract "7NTXX" = "7NR" := by decide

example : find_contract_from_auction "P P P 1C P 2S X R P 7N" = "7N" := by decide
example : find_contract_from_auction "P 4N X P P 5H X P P P" = "5HX" := by decide
example : find_contract_from_auction "2C 3D P P X R P P P" = "3DR" := by decide
example : find_contract_from_auction "P P P P" = "P" := by decide

example : find_declarer_from_auction "1C 2C 3C 4C 5S 7C P P P" "E" = "S" := by decide
example : find_declarer_from_auction "P P 2D 3C 4H X 5H P P P" "N" = "N" := by decide
example : find_declarer_from_auction "1C X R P P P" "W" = "W" := by decide
example : find_declarer_from_auction "P P P P" "E" = "" := by decide

example : find_lead_from_declarer "N" = "E" := by decide
example : find_lead_from_declarer "E" = "S" := by decide
example : find_lead_from_declarer "S" = "W" := by decide
example : find_lead_from_declarer "W" = "N" := by decide

example : compute_claim 10 6 5 = .ok 10 := by decide
example : compute_claim 8 10 9 = .error .claimError := by decide
example : compute_claim 12 12 10 = .error .claimError := by decide

example : compute_year "2016" "2010.??.??" = .ok 2010 := by decide
example : compute_year "2000 Bridge Game" "#" = .ok 2000 := by decide
example : compute_year "Bridge 2017" "?" = .ok 0 := by decide
example : compute_year "Bridge1954" "" = .ok 0 := by decide
example : compute_year "Bridge1982Champs" "2032.??.??" = .ok 1982 := by decide

example : normalize_name "John Smith" wbfTestData = .ok "John Smith,0,0" := by decide
example : normalize_name "John Smith Doyle" wbfTestData = .ok "John (Smith) Doyle,0,0" := by
  decide
example : normalize_name "Liam A. R. Smith" wbfTestData = .ok ",-1,-1" := by decide
example : normalize_name "Liam Ashton R. Smith" wbfTestData =
    .ok "Liam \x27Ashton\x27 R. Smith,0,0" := by decide
example : normalize_name "Jeff K. Doyle" wbfTestData = .ok "Jeff K. L. Doyle,0,0" := by decide

example :
    clean_board "2000 Bridge" "2000.??.??" "North" "East" "South" "West" testDeal
      "All" "N" "N" "1D 1H X P P 2C 2D 3C 3D P P P" "3D" "N" "E" "SQ S2 S3 SK - - - S5" 9
      wbfTestDataCB = .ok (testBoardExpected, "", "") := by decide

example :
    clean_board "2000 Bridge" "2000.??.??" "" "" "" "" testDeal
      "All" "N" "N" "1D 1H X P P 2C 2D 3C 3D P P P" "3D" "N" "E" "SQ S2 S3 SK - - - S5" 9
      wbfTestDataCB = .error .missingNamesError := by decide

example :
    clean_board "2000 Bridge" "2000.??.??" "North" "East" "South" "West" testDeal
      "All" "N" "N" "1D 1H X P P 2C 2D 3C 3D P P P" "4D" "N" "E" "SQ S2 S3 SK - - - S5" 9
      wbfTestDataCB = .error .contractContradictionError := by decide

example :
    clean_board "2000 Bridge" "2000.??.??" "North" "East" "South" "West" testDeal
      "All" "N" "N" "1D 1H X P P 2C 2D 3C 3D P P P" "3D" "N" "S" "SQ S2 S3 SK - - - S5" 9
      wbfTestDataCB = .error .leadContradictionError := by decide

example :
    clean_board "2000 Bridge" "2000.??.??" "North" "East" "South" "West" testDeal
      "All" "N" "N" "1D 1H X P P 2C 2D 3C 3D P P P" "3D" "E" "S" "SQ S2 S3 SK - - - S5" 9
      wbfTestDataCB = .error .declarerContradictionError := by decide

example :
    clean_board "2000 Bridge" "2000.??.??" "North" "East" "South" "West"
      "N:AK7.54.987653.A Q.AT983.42.JT753 642.KQJ7.AQJ.962 JT983.62.KT.KQ84"
      "All" "N" "N" "1D 1H X P P 2C 2D 3C 3D P P P" "3D" "N" "E" "SQ S2 S3 SK - - - S5" 9
      wbfTestDataCB = .error .unbalancedDealError := by decide

example :
    clean_board "2000 Bridge" "2000.??.??" "North" "East" "South" "West" testDeal
      "All" "N" "N" "P P P P" "P" "P" "P" "SQ S2 S3 SK - - - S5" 9
      wbfTestDataCB = .error .passContradictionError := by decide

example :
    clean_board "2000 Bridge" "2000.??.??" "North" "East" "South" "West" testDeal
      "All" "N" "N" "1D 1H X P P 2C 2D 3C 3D P P P" "3D" "N" "E" "SQ S2 S3 SK - - - S5" 0
      wbfTestDataCB = .error .claimError := by decide

/-! ## C7 and C10 -/

/-- Helper for C1: the contract-bid monotonicity check never raises
`PassError`. -/
theorem check_contract_bids_ne_pass (l : List String) :
    ∀ c, check_contract_bids l c ≠ .error .passError := by
  induction l with
  | nil => intro c; simp [check_contract_bids]
  | cons b rest ih =>
    intro c
    simp only [check_contract_bids]
    split_ifs
    · decide
    · exact ih _

/-- Helper for C1: the double/redouble scan of one run never raises
`PassError`. -/
theorem check_doubles_run_ne_pass (l : List String) :
    ∀ idx pos doubled redoubled,
      check_doubles_run idx l pos doubled redoubled ≠ .error .passError := by
  induction l with
  | nil => intro idx pos doubled redoubled; simp [check_doubles_run]
  | cons b rest ih =>
    intro idx pos doubled redoubled
    simp only [check_doubles_run]
    split_ifs <;> first | decide | exact ih _ _ _ _

/-- Helper for C1: the double/redouble check never raises `PassError`. -/
theorem check_doubles_ne_pass (runs : List (List String)) :
    ∀ idx, check_doubles runs idx ≠ .error .passError := by
  induction runs with
  | nil => intro idx; simp [check_doubles]
  | cons run rest ih =>
    intro idx
    simp only [check_doubles]
    cases hr : check_doubles_run idx run 0 false false with
    | error e =>
      intro he
      exact check_doubles_run_ne_pass run idx 0 false false (hr.trans (by injection he with h; rw [h]))
    | ok _ => exact ih _

/-- C1 (amended): for every non-empty raw auction, `validate_auction` raises
`PassError` exactly when the first occurrence of `"P P P"` at string position
≥ 1 of the space-joined cleaned auction is not at position `length − 5`; in
particular the all-pass auction of four passes `"P P P P"` is accepted, while
the three-pass auction `"P P P"` is rejected (its only `"P P P"` occurrence is
at position 0). -/
theorem c1_pass_error_iff (auction : String) (h : auction ≠ "") :
    ((validate_auction auction = .error .passError) ↔
      pyFind (pyJoin " " (get_cleaned_bids auction)) "P P P" 1 ≠
        ((pyJoin " " (get_cleaned_bids auction)).length : Int) - 5) ∧
    validate_auction "P P P P" = .ok "P P P P" := by
  refine ⟨?_, by decide⟩
  unfold validate_auction
  rw [if_neg h]
  by_cases hp : pyFind (pyJoin " " (get_cleaned_bids auction)) "P P P" 1 ≠
      ((pyJoin " " (get_cleaned_bids auction)).length : Int) - 5
  · rw [if_pos hp]
    simp [hp]
  · rw [if_neg hp]
    constructor
    · intro he
      exfalso
      cases hc : check_contract_bids (separate_bids (get_cleaned_bids auction)).1 (-1) with
      | error e =>
        rw [hc] at he
        exact check_contract_bids_ne_pass _ _ (hc.trans (by injection he with h2; rw [h2]))
      | ok u =>
        rw [hc] at he
        cases hd : check_doubles (separate_bids (get_cleaned_bids auction)).2 0 with
        | error e =>
          rw [hd] at he
          exact check_doubles_ne_pass _ _ (hd.trans (by injection he with h2; rw [h2]))
        | ok v => rw [hd] at he; exact Except.noConfusion he
    · intro hcond
      exact absurd hcond hp

/-- Witness for the C1 theorem at the concrete input `"P P P"`: the cleaned
auction is `"P P P"` itself, whose only occurrence of `"P P P"` is at
position 0, so `validate_auction` rejects it with `PassError`. -/
theorem c1_pass_error_iff_witness :
    ("P P P" : String) ≠ "" ∧
      (((validate_auction "P P P" = .error .passError) ↔
        pyFind (pyJoin " " (get_cleaned_bids "P P P")) "P P P" 1 ≠
          ((pyJoin " " (get_cleaned_bids "P P P")).length : Int) - 5) ∧
      validate_auction "P P P P" = .ok "P P P P") :=
  ⟨by decide, c1_pass_error_iff "P P P" (by decide)⟩

/-- C1 counterexample: the claim says an all-pass auction of exactly three
passes (`"P P P"`) is accepted as valid, but `validate_auction` raises
`PassError` on it (the search for `"P P P"` starts at string position 1 and
finds nothing, while `len − 5 = 0`). -/
theorem c1_counterexample : validate_auction "P P P" = .error .passError := by decide

/-- C7: `compute_score("4HR", 10, True, 0)` returns 1080,
`compute_score("7H", 13, False, 0)` returns 1510, and
`compute_score("4SX", 8, True, 0)` returns −500. -/
theorem c7_compute_score_examples :
    compute_score "4HR" 10 true 0 = some 1080 ∧
    compute_score "7H" 13 false 0 = some 1510 ∧
    compute_score "4SX" 8 true 0 = some (-500) := by
  refine ⟨by decide, by decide, by decide⟩

/-- Helper for C8: for a defeated contract, vulnerability strictly decreases
the (negative) undertrick score, whatever the doubled-state string and year. -/
theorem compute_undertrick_points_vuln_lt (u : Int) (hu : 1 ≤ u) (d : String) (year : Int) :
    compute_undertrick_points u d true year < compute_undertrick_points u d false year := by
  have hfd : (2 * u).fdiv 3 = 2 * u / 3 := Int.fdiv_eq_ediv (2 * u) (by norm_num)
  by_cases hdR : d = "R" <;> by_cases hd0 : d = "" <;>
    simp only [compute_undertrick_points, hfd, hdR, hd0, Bool.not_true, Bool.not_false,
      inf_eq_min, sup_eq_max, min_def, max_def] <;>
    split_ifs
  all_goals
    first
      | omega
      | (rcases le_or_lt u 3 with hle | hle
         · interval_cases u <;> omega
         · omega)
      | simp_all

/-- Helper for C8: the bonus points never decrease with vulnerability. -/
theorem compute_bonus_points_vuln_mono (level will_make cp : Int) (d : String) :
    compute_bonus_points level will_make cp d false ≤
      compute_bonus_points level will_make cp d true := by
  simp only [compute_bonus_points, Bool.not_false, Bool.not_true, if_true, if_false]
  split_ifs <;> omega

/-- Helper for C8: the overtrick points never decrease with vulnerability. -/
theorem compute_overtrick_points_vuln_mono (o : Int) (ho : 0 ≤ o) (t d : String) :
    compute_overtrick_points o t d false ≤ compute_overtrick_points o t d true := by
  simp only [compute_overtrick_points, Bool.not_false, Bool.not_true, if_true, if_false]
  split_ifs <;> omega

/-- Helper for C8: once the contract is parsed, a defeated contract scores
strictly less vulnerable, and a made contract at least as much vulnerable. -/
theorem compute_score_parsed_vuln (level : Int) (trump double : String) (tricks year : Int) :
    (tricks < level + 6 →
      compute_score_parsed level trump double tricks true year <
        compute_score_parsed level trump double tricks false year) ∧
    (level + 6 ≤ tricks →
      compute_score_parsed level trump double tricks false year ≤
        compute_score_parsed level trump double tricks true year) := by
  constructor
  · intro h
    simp only [compute_score_parsed, if_pos h]
    exact compute_undertrick_points_vuln_lt _ (by omega) _ _
  · intro h
    have hn : ¬ tricks < level + 6 := by omega
    simp only [compute_score_parsed, if_neg hn]
    have h1 := compute_bonus_points_vuln_mono level tricks
      (compute_contract_points level trump double) double
    have h2 := compute_overtrick_points_vuln_mono (tricks - (level + 6)) (by omega) trump double
    omega

/-- C8: for every fixed contract (level, denomination, doubled-state), trick
count and year: a defeated contract scores strictly less when the declarer is
vulnerable, and a made contract scores at least as much when vulnerable. -/
theorem c8_score_vulnerability (lc t : Char) (d : String) (tricks year : Int)
    (hl : lc ∈ ['1', '2', '3', '4', '5', '6', '7'])
    (ht : t ∈ ['S', 'H', 'D', 'C', 'N'])
    (hd : d ∈ (["", "X", "R"] : List String)) :
    (tricks < ((lc.toNat - 48 : Nat) : Int) + 6 →
      ∃ sv snv, compute_score (String.mk (lc :: t :: d.data)) tricks true year = some sv ∧
        compute_score (String.mk (lc :: t :: d.data)) tricks false year = some snv ∧ sv < snv) ∧
    (((lc.toNat - 48 : Nat) : Int) + 6 ≤ tricks →
      ∃ sv snv, compute_score (String.mk (lc :: t :: d.data)) tricks true year = some sv ∧
        compute_score (String.mk (lc :: t :: d.data)) tricks false year = some snv ∧ snv ≤ sv) := by
  fin_cases hl <;> fin_cases hd <;>
    exact ⟨fun htr => ⟨_, _, rfl, rfl, (compute_score_parsed_vuln _ _ _ _ _).1 htr⟩,
           fun htr => ⟨_, _, rfl, rfl, (compute_score_parsed_vuln _ _ _ _ _).2 htr⟩⟩

/-- Witness for C8 at the concrete defeated contract `4SX`, 8 tricks,
year 0. -/
theorem c8_score_vulnerability_witness :
    ∃ sv snv, compute_score (String.mk ('4' :: 'S' :: "X".data)) 8 true 0 = some sv ∧
      compute_score (String.mk ('4' :: 'S' :: "X".data)) 8 false 0 = some snv ∧ sv < snv :=
  (c8_score_vulnerability '4' 'S' "X" 8 0 (by decide) (by decide) (by decide)).1 (by decide)

/-- C10: `get_vulnerable_players` returns the set of all four seats
`{"N","E","S","W"}` for every input string — the normalization loop's variable
shadows and overwrites the argument, so the result never depends on it. -/
theorem c10_get_vulnerable_players_constant (vulnerable : String) :
    get_vulnerable_players vulnerable = ["N", "E", "S", "W"] := by
  rfl

/-! ## C2: the deal round-trip -/

/-- C2 counterexample: `validate_deal` does not check the number of hands, so
a deal string with a single 13-card hand is accepted, and the four returned
hands concatenate to 13 cards, not the 52-card deck. -/
theorem c2_counterexample :
    validate_deal "N:AKQJT98765432..." =
      .ok [["SA", "SK", "SQ", "SJ", "ST", "S9", "S8", "S7", "S6", "S5", "S4", "S3", "S2"],
        [], [], []] ∧
    ([["SA", "SK", "SQ", "SJ", "ST", "S9", "S8", "S7", "S6", "S5", "S4", "S3", "S2"],
        [], [], []] : List (List String)).flatten.length ≠ 52 := by
  constructor
  · decide
  · decide

/-- Helper: `getD` after `set` at the same (in-range) index. -/
theorem getD_set_self_aux {α : Type} (l : List α) (i : Nat) (v d : α) (h : i < l.length) :
    (l.set i v).getD i d = v := by
  simp [List.getD_eq_getElem?_getD, List.getElem?_set_self h]

/-- Helper: `getD` after `set` at a different index. -/
theorem getD_set_ne_aux {α : Type} (l : List α) (i j : Nat) (v : α) (d : α) (h : i ≠ j) :
    (l.set i v).getD j d = l.getD j d := by
  simp [List.getD_eq_getElem?_getD, List.getElem?_set_ne h]

/-- Helper for C2: a successful `placeCard` moves exactly the named card from
the deck to the outside, as a permutation of the remaining card multiset. -/
theorem placeCard_perm (deck : List (List Char)) :
    ∀ (sp : Nat) (card : Char) (deck2 : List (List Char)) (i : Nat),
      placeCard deck sp card = .ok deck2 →
      deckCardsAux deck i ~ String.mk [SUITS.getD (i + sp) ' ', card] :: deckCardsAux deck2 i := by
  induction deck with
  | nil => intro sp card deck2 i h; simp [placeCard] at h
  | cons row rest ih =>
    intro sp card deck2 i h
    cases sp with
    | zero =>
      simp only [placeCard] at h
      split_ifs at h with hmem
      · injection h with h2
        subst h2
        simp only [deckCardsAux, Nat.add_zero]
        calc row.map (fun r => String.mk [SUITS.getD i ' ', r]) ++ deckCardsAux rest (i + 1)
            ~ (card :: row.erase card).map (fun r => String.mk [SUITS.getD i ' ', r])
                ++ deckCardsAux rest (i + 1) :=
              ((List.perm_cons_erase hmem).map _).append_right _
          _ = String.mk [SUITS.getD i ' ', card] ::
                ((row.erase card).map (fun r => String.mk [SUITS.getD i ' ', r])
                  ++ deckCardsAux rest (i + 1)) := by simp
    | succ sp =>
      simp only [placeCard] at h
      cases hpc : placeCard rest sp card with
      | error e => rw [hpc] at h; exact absurd h (by simp)
      | ok rest2 =>
        rw [hpc] at h
        injection h with h2
        subst h2
        have hrec := ih sp card rest2 (i + 1) hpc
        have hidx : i + 1 + sp = i + (sp + 1) := by omega
        rw [hidx] at hrec
        simp only [deckCardsAux]
        calc row.map (fun r => String.mk [SUITS.getD i ' ', r]) ++ deckCardsAux rest (i + 1)
            ~ row.map (fun r => String.mk [SUITS.getD i ' ', r]) ++
                (String.mk [SUITS.getD (i + (sp + 1)) ' ', card] :: deckCardsAux rest2 (i + 1)) :=
              hrec.append_left _
          _ ~ String.mk [SUITS.getD (i + (sp + 1)) ' ', card] ::
                (row.map (fun r => String.mk [SUITS.getD i ' ', r]) ++ deckCardsAux rest2 (i + 1)) :=
              List.perm_middle

/-- Helper for C2: a successful `placeSuit` moves exactly the suit's cards. -/
theorem placeSuit_perm :
    ∀ (cards : List Char) (deck : List (List Char)) (sp : Nat) (deck2 : List (List Char))
      (placed : List String),
      placeSuit deck sp cards = .ok (deck2, placed) →
      deckCards deck ~ placed ++ deckCards deck2 ∧ placed.length = cards.length := by
  intro cards
  induction cards with
  | nil =>
    intro deck sp deck2 placed h
    simp only [placeSuit] at h
    injection h with h2
    injection h2 with h3 h4
    subst h3; subst h4
    exact ⟨List.Perm.refl _, rfl⟩
  | cons card restCards ih =>
    intro deck sp deck2 placed h
    simp only [placeSuit] at h
    split at h
    · simp at h
    rename_i deckMid hpc
    split at h
    · simp at h
    rename_i deck3 placed2 hps
    injection h with h2
    injection h2 with h3 h4
    subst h3
    rcases ih deckMid sp deck3 placed2 hps with ⟨hperm, hlen⟩
    have hcard := placeCard_perm deck sp card deckMid 0 hpc
    rw [Nat.zero_add] at hcard
    constructor
    · calc deckCards deck
          ~ String.mk [SUITS.getD sp ' ', card] :: deckCards deckMid := hcard
        _ ~ String.mk [SUITS.getD sp ' ', card] :: (placed2 ++ deckCards deck3) := hperm.cons _
        _ = (String.mk [SUITS.getD sp ' ', card] :: placed2) ++ deckCards deck3 := rfl
        _ = placed ++ deckCards deck3 := by rw [h4]
    · rw [← h4]; simp [hlen]

/-- Helper for C2: a successful `placeHandAux` moves exactly the hand's cards,
whose number is the sum of the suit lengths. -/
theorem placeHandAux_perm :
    ∀ (suits : List (List Char)) (deck : List (List Char)) (sp : Nat)
      (deck2 : List (List Char)) (placed : List String),
      placeHandAux deck suits sp = .ok (deck2, placed) →
      deckCards deck ~ placed ++ deckCards deck2 ∧
        placed.length = (suits.map List.length).sum := by
  intro suits
  induction suits with
  | nil =>
    intro deck sp deck2 placed h
    simp only [placeHandAux] at h
    injection h with h2
    injection h2 with h3 h4
    subst h3; subst h4
    exact ⟨List.Perm.refl _, rfl⟩
  | cons suit restSuits ih =>
    intro deck sp deck2 placed h
    simp only [placeHandAux] at h
    split at h
    · simp at h
    rename_i deckMid placed1 hps
    split at h
    · simp at h
    rename_i deck3 placed2 hph
    injection h with h2
    injection h2 with h3 h4
    subst h3
    rcases placeSuit_perm suit deck sp deckMid placed1 hps with ⟨hp1, hl1⟩
    rcases ih deckMid (sp + 1) deck3 placed2 hph with ⟨hp2, hl2⟩
    constructor
    · calc deckCards deck ~ placed1 ++ deckCards deckMid := hp1
        _ ~ placed1 ++ (placed2 ++ deckCards deck3) := hp2.append_left _
        _ = (placed1 ++ placed2) ++ deckCards deck3 := by rw [List.append_assoc]
        _ = placed ++ deckCards deck3 := by rw [h4]
    · rw [← h4]; simp [hl1, hl2]

/-- Helper for C2: appending to one (in-range) seat permutes the flattened
hand contents accordingly. -/
theorem flatten_set_perm {α : Type} :
    ∀ (l : List (List α)) (t : Nat) (x : List α), t < l.length →
      (l.set t (l.getD t [] ++ x)).flatten ~ l.flatten ++ x := by
  intro l
  induction l with
  | nil => intro t x ht; simp at ht
  | cons a rest ih =>
    intro t x ht
    cases t with
    | zero =>
      simp only [List.set_cons_zero, List.getD_cons_zero, List.flatten_cons]
      calc (a ++ x) ++ rest.flatten
          = a ++ (x ++ rest.flatten) := by rw [List.append_assoc]
        _ ~ a ++ (rest.flatten ++ x) := List.perm_append_comm.append_left a
        _ = (a ++ rest.flatten) ++ x := by rw [List.append_assoc]
    | succ t =>
      simp only [List.set_cons_succ, List.getD_cons_succ, List.flatten_cons]
      have hrec := ih t x (by simpa using ht)
      calc a ++ (rest.set t (rest.getD t [] ++ x)).flatten
          ~ a ++ (rest.flatten ++ x) := hrec.append_left a
        _ = (a ++ rest.flatten) ++ x := by rw [List.append_assoc]

/-- Helper for C2: a successful hand loop keeps four seats, moves each hand's
13 cards out of the deck into the seats, and the deck plus seats is a constant
multiset. -/
theorem processDealHands_perm :
    ∀ (hs : List String) (pos off : Nat) (deck : List (List Char))
      (ph res : List (List String)),
      ph.length = 4 →
      processDealHands hs pos off deck ph = .ok res →
      res.length = 4 ∧
      ∃ deckF, deckCards deck ++ ph.flatten ~ deckCards deckF ++ res.flatten ∧
        res.flatten.length = ph.flatten.length + 13 * hs.length := by
  intro hs
  induction hs with
  | nil =>
    intro pos off deck ph res hlen h
    simp only [processDealHands] at h
    injection h with h2
    subst h2
    exact ⟨hlen, deck, List.Perm.refl _, by simp⟩
  | cons hand restHands ih =>
    intro pos off deck ph res hlen h
    simp only [processDealHands] at h
    split at h
    · simp at h
    rename_i hsum
    split at h
    · simp at h
    rename_i deck2 placed hph
    have hph2len : (ph.set ((pos + off) % 4)
        (ph.getD ((pos + off) % 4) [] ++ placed)).length = 4 := by simp [hlen]
    rcases ih (pos + 1) off deck2 _ res hph2len h with ⟨hreslen, deckF, hperm, hcount⟩
    rcases placeHandAux_perm _ deck 0 deck2 placed hph with ⟨hplace, hplen⟩
    have hsum13 : (((pySplit hand '.').map String.data).map List.length).sum = 13 :=
      not_not.mp hsum
    have hplen13 : placed.length = 13 := by rw [hplen, hsum13]
    have hmod : (pos + off) % 4 < ph.length := by omega
    have hset := flatten_set_perm ph ((pos + off) % 4) placed hmod
    refine ⟨hreslen, deckF, ?_, ?_⟩
    · calc deckCards deck ++ ph.flatten
          ~ (placed ++ deckCards deck2) ++ ph.flatten := hplace.append_right _
        _ = placed ++ (deckCards deck2 ++ ph.flatten) := by rw [List.append_assoc]
        _ ~ deckCards deck2 ++ (placed ++ ph.flatten) := List.perm_append_comm_assoc _ _ _
        _ ~ deckCards deck2 ++ (ph.flatten ++ placed) := List.perm_append_comm.append_left _
        _ ~ deckCards deck2 ++ (ph.set ((pos + off) % 4)
              (ph.getD ((pos + off) % 4) [] ++ placed)).flatten := (hset.symm).append_left _
        _ ~ deckCards deckF ++ res.flatten := hperm
    · have hlen2 := hset.length_eq
      simp only [List.length_append] at hlen2
      rw [hcount, hlen2, hplen13]
      simp only [List.length_cons]
      ring

/-- Helper for C2: with exactly four hand strings, the four seat targets
`(i + offset) % 4` are pairwise distinct, so every seat receives exactly the
13 cards of one hand. -/
theorem processDealHands_seats (h0 h1 h2 h3 : String) (off : Nat) (deck : List (List Char))
    (res : List (List String))
    (h : processDealHands [h0, h1, h2, h3] 0 off deck [[], [], [], []] = .ok res) :
    ∀ j, j < 4 → (res.getD j []).length = 13 := by
  simp only [processDealHands] at h
  split at h
  · simp at h
  rename_i hs0
  split at h
  · simp at h
  rename_i deckA p0 hph0
  split at h
  · simp at h
  rename_i hs1
  split at h
  · simp at h
  rename_i deckB p1 hph1
  split at h
  · simp at h
  rename_i hs2
  split at h
  · simp at h
  rename_i deckC p2 hph2
  split at h
  · simp at h
  rename_i hs3
  split at h
  · simp at h
  rename_i deckD p3 hph3
  injection h with h2
  subst h2
  have hp0 : p0.length = 13 := by
    have hl := (placeHandAux_perm _ deck 0 deckA p0 hph0).2
    rw [hl, not_not.mp hs0]
  have hp1 : p1.length = 13 := by
    have hl := (placeHandAux_perm _ deckA 0 deckB p1 hph1).2
    rw [hl, not_not.mp hs1]
  have hp2 : p2.length = 13 := by
    have hl := (placeHandAux_perm _ deckB 0 deckC p2 hph2).2
    rw [hl, not_not.mp hs2]
  have hp3 : p3.length = 13 := by
    have hl := (placeHandAux_perm _ deckC 0 deckD p3 hph3).2
    rw [hl, not_not.mp hs3]
  have hbase : ∀ t, ([[], [], [], []] : List (List String)).getD t [] = [] := by
    intro t
    rcases t with _ | _ | _ | _ | t <;> rfl
  set t0 := (0 + off) % 4 with ht0
  set t1 := (0 + 1 + off) % 4 with ht1
  set t2 := (0 + 1 + 1 + off) % 4 with ht2
  set t3 := (0 + 1 + 1 + 1 + off) % 4 with ht3
  simp only [hbase]
  have hv1 : (([[], [], [], []] : List (List String)).set t0 ([] ++ p0)).getD t1 [] = [] := by
    rw [getD_set_ne_aux ([[], [], [], []] : List (List String)) t0 t1 ([] ++ p0) [] (by omega)]
    exact hbase t1
  rw [hv1]
  have hv2 : ((([[], [], [], []] : List (List String)).set t0 ([] ++ p0)).set t1
      ([] ++ p1)).getD t2 [] = [] := by
    rw [getD_set_ne_aux _ t1 t2 ([] ++ p1) [] (by omega),
      getD_set_ne_aux ([[], [], [], []] : List (List String)) t0 t2 ([] ++ p0) [] (by omega)]
    exact hbase t2
  rw [hv2]
  have hv3 : (((([[], [], [], []] : List (List String)).set t0 ([] ++ p0)).set t1
      ([] ++ p1)).set t2 ([] ++ p2)).getD t3 [] = [] := by
    rw [getD_set_ne_aux _ t2 t3 ([] ++ p2) [] (by omega),
      getD_set_ne_aux _ t1 t3 ([] ++ p1) [] (by omega),
      getD_set_ne_aux ([[], [], [], []] : List (List String)) t0 t3 ([] ++ p0) [] (by omega)]
    exact hbase t3
  rw [hv3]
  intro j hj
  have hcover : j = t0 ∨ j = t1 ∨ j = t2 ∨ j = t3 := by omega
  rcases hcover with rfl | rfl | rfl | rfl
  · rw [getD_set_ne_aux _ t3 t0 ([] ++ p3) [] (by omega),
      getD_set_ne_aux _ t2 t0 ([] ++ p2) [] (by omega),
      getD_set_ne_aux _ t1 t0 ([] ++ p1) [] (by omega),
      getD_set_self_aux _ t0 ([] ++ p0) [] (by simp; omega)]
    simp [hp0]
  · rw [getD_set_ne_aux _ t3 t1 ([] ++ p3) [] (by omega),
      getD_set_ne_aux _ t2 t1 ([] ++ p2) [] (by omega),
      getD_set_self_aux _ t1 ([] ++ p1) [] (by simp; omega)]
    simp [hp1]
  · rw [getD_set_ne_aux _ t3 t2 ([] ++ p3) [] (by omega),
      getD_set_self_aux _ t2 ([] ++ p2) [] (by simp; omega)]
    simp [hp2]
  · rw [getD_set_self_aux _ t3 ([] ++ p3) [] (by simp; omega)]
    simp [hp3]

/-- C2 (amended): whenever the deal string (after the 2-character seat prefix)
splits into exactly four space-separated hands and `validate_deal` returns,
the four returned hands have 13 cards each and together are a permutation of
the 52-card deck. -/
theorem c2_deal_partition (deal : String) (hands : List (List String))
    (h4 : (pySplit (String.mk (deal.data.drop 2)) ' ').length = 4)
    (hok : validate_deal deal = .ok hands) :
    hands.length = 4 ∧ (∀ j, j < 4 → (hands.getD j []).length = 13) ∧
      hands.flatten ~ FULL_DECK := by
  unfold validate_deal at hok
  split at hok
  · simp at hok
  split at hok
  · simp at hok
  rename_i off hidx
  have hex : ∃ a0 a1 a2 a3,
      pySplit (String.mk (deal.data.drop 2)) ' ' = [a0, a1, a2, a3] := by
    rcases hsE : pySplit (String.mk (deal.data.drop 2)) ' ' with
      _ | ⟨a0, _ | ⟨a1, _ | ⟨a2, _ | ⟨a3, _ | ⟨a4, tl⟩⟩⟩⟩⟩
    · exfalso; rw [hsE] at h4; simp at h4
    · exfalso; rw [hsE] at h4; simp at h4
    · exfalso; rw [hsE] at h4; simp at h4
    · exfalso; rw [hsE] at h4; simp at h4
    · exact ⟨_, _, _, _, rfl⟩
    · exfalso; rw [hsE] at h4; simp at h4
  obtain ⟨a0, a1, a2, a3, he⟩ := hex
  rw [he] at hok
  rcases processDealHands_perm [a0, a1, a2, a3] 0 off [RANKS, RANKS, RANKS, RANKS]
      [[], [], [], []] hands (by rfl) hok with ⟨hlen4, deckF, hp, hc⟩
  have hseats := processDealHands_seats a0 a1 a2 a3 off [RANKS, RANKS, RANKS, RANKS]
    hands hok
  refine ⟨hlen4, hseats, ?_⟩
  have hdeck0 : deckCards [RANKS, RANKS, RANKS, RANKS] = FULL_DECK := by decide
  rw [hdeck0] at hp
  simp only [List.flatten_nil, List.flatten_cons, List.append_nil, List.nil_append] at hp hc
  have hctot : hands.flatten.length = 52 := by simpa using hc
  have hlenF : (deckCards deckF).length = 0 := by
    have hle := hp.length_eq
    simp only [List.length_append] at hle
    have hfd : FULL_DECK.length = 52 := by decide
    omega
  rw [List.length_eq_zero.mp hlenF] at hp
  simpa using hp.symm

/-- Witness for C2 (amended) at the valid deal from the repository's unit
tests. -/
theorem c2_deal_partition_witness :
    (pySplit (String.mk ((("N:AK75.54.987653.A Q.AT983.42.JT753 642.KQJ7.AQJ.962 JT983.62.KT.KQ84" : String)).data.drop 2)) ' ').length = 4 ∧
    (([["SA", "SK", "S7", "S5", "H5", "H4", "D9", "D8", "D7", "D6", "D5", "D3", "CA"],
       ["SQ", "HA", "HT", "H9", "H8", "H3", "D4", "D2", "CJ", "CT", "C7", "C5", "C3"],
       ["S6", "S4", "S2", "HK", "HQ", "HJ", "H7", "DA", "DQ", "DJ", "C9", "C6", "C2"],
       ["SJ", "ST", "S9", "S8", "S3", "H6", "H2", "DK", "DT", "CK", "CQ", "C8", "C4"]] :
         List (List String)).length = 4 ∧
     (∀ j, j < 4 →
       (([["SA", "SK", "S7", "S5", "H5", "H4", "D9", "D8", "D7", "D6", "D5", "D3", "CA"],
          ["SQ", "HA", "HT", "H9", "H8", "H3", "D4", "D2", "CJ", "CT", "C7", "C5", "C3"],
          ["S6", "S4", "S2", "HK", "HQ", "HJ", "H7", "DA", "DQ", "DJ", "C9", "C6", "C2"],
          ["SJ", "ST", "S9", "S8", "S3", "H6", "H2", "DK", "DT", "CK", "CQ", "C8", "C4"]] :
            List (List String)).getD j []).length = 13) ∧
     ([["SA", "SK", "S7", "S5", "H5", "H4", "D9", "D8", "D7", "D6", "D5", "D3", "CA"],
       ["SQ", "HA", "HT", "H9", "H8", "H3", "D4", "D2", "CJ", "CT", "C7", "C5", "C3"],
       ["S6", "S4", "S2", "HK", "HQ", "HJ", "H7", "DA", "DQ", "DJ", "C9", "C6", "C2"],
       ["SJ", "ST", "S9", "S8", "S3", "H6", "H2", "DK", "DT", "CK", "CQ", "C8", "C4"]] :
         List (List String)).flatten ~ FULL_DECK) :=
  ⟨by decide,
   c2_deal_partition "N:AK75.54.987653.A Q.AT983.42.JT753 642.KQJ7.AQJ.962 JT983.62.KT.KQ84"
     _ (by decide) (by decide)⟩

/-! ## C5: declarer candidates -/

/-- Sanity check: the spec's own fixture for `determine_declarer_candidates`
(auction `"1S 2H 3C P P P"`, bidstart 0). -/
example :
    determine_declarer_candidates "1S 2H 3C P P P" 0 'S' = {0, 1, 3} ∧
    determine_declarer_candidates "1S 2H 3C P P P" 0 'H' = {0, 1, 2} ∧
    determine_declarer_candidates "1S 2H 3C P P P" 0 'D' = {0, 1, 2, 3} ∧
    determine_declarer_candidates "1S 2H 3C P P P" 0 'C' = {1, 2, 3} ∧
    determine_declarer_candidates "1S 2H 3C P P P" 0 'N' = {0, 1, 2, 3} := by decide

/-- C5 counterexample: on the auction `"1S 2S 3S 4S P P P"` (bidstart 0) the
code keeps seats 0 and 1 as spade declarer candidates, whereas the claim's
rule — remove the partner whenever the partner is still eligible, with no
condition on the bidder's own eligibility — would remove every seat; in
particular seat 0 (the partner of seat 2, whose own eligibility was already
removed) is *not* removed by the code, contradicting the claim. -/
theorem c5_counterexample :
    determine_declarer_candidates "1S 2S 3S 4S P P P" 0 'S' = {0, 1} ∧
    declarer_candidates_claim "1S 2S 3S 4S P P P" 0 'S' = ∅ ∧
    (0 : Nat) ∈ determine_declarer_candidates "1S 2S 3S 4S P P P" 0 'S' := by
  refine ⟨by decide, by decide, by decide⟩

/-- Helper for C5: projecting the simultaneous per-suit dict recursion to a
single denomination gives the per-denomination amended rule. -/
theorem determine_declarer_candidates_aux_eq (bids : List String) :
    ∀ (b : Nat) (m : Char → Finset Nat) (suit : Char),
      determine_declarer_candidates_aux bids b m suit =
        declarer_candidates_amended_aux suit bids b (m suit) := by
  induction bids with
  | nil => intro b m suit; rfl
  | cons bid rest ih =>
    intro b m suit
    simp only [determine_declarer_candidates_aux, declarer_candidates_amended_aux]
    by_cases hsuit : bid.data.getD 1 ' ' = suit
    · rw [hsuit]
      by_cases hcond : bid ∈ ORDERED_CONTRACT_BIDS ∧ b ∈ m suit ∧ (b + 2) % 4 ∈ m suit
      · rw [if_pos hcond, if_pos ⟨hcond.1, rfl, hcond.2.1, hcond.2.2⟩, ih]
        rw [Function.update_same]
      · rw [if_neg hcond, if_neg ?_, ih]
        intro hc
        exact hcond ⟨hc.1, hc.2.2.1, hc.2.2.2⟩
    · by_cases hcond : bid ∈ ORDERED_CONTRACT_BIDS ∧ b ∈ m (bid.data.getD 1 ' ') ∧
          (b + 2) % 4 ∈ m (bid.data.getD 1 ' ')
      · rw [if_pos hcond, if_neg ?_, ih, Function.update_noteq (Ne.symm hsuit)]
        intro hc
        exact hsuit hc.2.1
      · rw [if_neg hcond, if_neg ?_, ih]
        intro hc
        exact hsuit hc.2.1

/-- C5 (amended): for every auction and in-range bidstart seat,
`determine_declarer_candidates` computes, per denomination, the set obtained
by starting with all 4 seats eligible and removing the bidder's partner
whenever a seat bids the denomination while *both* it and its partner are
still eligible. -/
theorem c5_candidates_eq_amended (auction : String) (bidstart : Nat) (hb : bidstart < 4)
    (suit : Char) :
    determine_declarer_candidates auction bidstart suit =
      declarer_candidates_amended auction bidstart suit := by
  unfold determine_declarer_candidates declarer_candidates_amended
  rw [determine_declarer_candidates_aux_eq, Nat.mod_eq_of_lt hb]

/-- Witness for C5 (amended) at the counterexample auction. -/
theorem c5_candidates_eq_amended_witness :
    (0 : Nat) < 4 ∧
      determine_declarer_candidates "1S 2S 3S 4S P P P" 0 'S' =
        declarer_candidates_amended "1S 2S 3S 4S P P P" 0 'S' :=
  ⟨by decide, c5_candidates_eq_amended "1S 2S 3S 4S P P P" 0 (by decide) 'S'⟩

/-! ## C6: invalid-play removal -/

/-- C6: the claim says every token outside the union of the hands plus `"-"`
is dropped before trick processing, so that an illegal token never causes a
`PlayError`.  But the removal loop mutates the list it iterates
(`plays.remove(play)` inside `for play in plays`), so of two adjacent illegal
tokens the second survives: here `"?"` is not a card of any hand, yet
`validate_play` raises `PlayError` when the surviving `"?"` is not found in
the leader's hand. -/
theorem c6_adjacent_illegal_tokens :
    (("?" : String) ∉ ("-" ::
      ([["SA", "SK", "SQ", "SJ", "ST", "S9", "S8", "S7", "S6", "S5", "S4", "S3", "S2"],
        ["HA", "HK", "HQ", "HJ", "HT", "H9", "H8", "H7", "H6", "H5", "H4", "H3", "H2"],
        ["DA", "DK", "DQ", "DJ", "DT", "D9", "D8", "D7", "D6", "D5", "D4", "D3", "D2"],
        ["CA", "CK", "CQ", "CJ", "CT", "C9", "C8", "C7", "C6", "C5", "C4", "C3", "C2"]] :
          List (List String)).flatten)) ∧
    validate_play "? ? SA HA CA" "N"
      [["SA", "SK", "SQ", "SJ", "ST", "S9", "S8", "S7", "S6", "S5", "S4", "S3", "S2"],
       ["HA", "HK", "HQ", "HJ", "HT", "H9", "H8", "H7", "H6", "H5", "H4", "H3", "H2"],
       ["DA", "DK", "DQ", "DJ", "DT", "D9", "D8", "D7", "D6", "D5", "D4", "D3", "D2"],
       ["CA", "CK", "CQ", "CJ", "CT", "C9", "C8", "C7", "C6", "C5", "C4", "C3", "C2"]] "S" =
      .error .playError := by
  refine ⟨by decide, by decide⟩

/-! ## C9: `validate_play` never mutates the caller's hands -/

/-- Helper for C9: the trick loop writes only to the freshly allocated copy
addresses, so every store cell below `n` is untouched, whether the loop
finishes or stops at an error. -/
theorem playLoop_frame (newAddrs : List Nat) (lp dec : Int) (trump : String) (n : Nat)
    (hlow : ∀ k, k < 4 → n ≤ newAddrs.getD k 0) :
    ∀ (plays : List String) (pos : Nat) (st : PlaySt) (i : Nat), i < n →
      ((playLoop newAddrs lp dec trump plays pos st).1.store)[i]? = st.store[i]? := by
  intro plays
  induction plays with
  | nil => intro pos st i hi; rfl
  | cons card rest ih =>
    intro pos st i hi
    by_cases h1 : st.num_dashes ≠ 0
    · simp only [playLoop, if_pos h1]
    simp only [playLoop, if_neg h1]
    have hseat4 : ((lp + (pos : Int)) % 4).toNat < 4 := by
      have hnn : 0 ≤ (lp + (pos : Int)) % 4 := Int.emod_nonneg _ (by norm_num)
      have hlt : (lp + (pos : Int)) % 4 < 4 := Int.emod_lt_of_pos _ (by norm_num)
      omega
    have haddr : n ≤ newAddrs.getD ((lp + (pos : Int)) % 4).toNat 0 :=
      hlow _ hseat4
    have hstore2 : ∀ v,
        (st.store.set (newAddrs.getD ((lp + (pos : Int)) % 4).toNat 0) v)[i]? =
          st.store[i]? := by
      intro v
      exact List.getElem?_set_ne (by omega)
    have hstore2' :
        (if card ≠ "-" then
          st.store.set (newAddrs.getD ((lp + (pos : Int)) % 4).toNat 0)
            ((st.store.getD (newAddrs.getD ((lp + (pos : Int)) % 4).toNat 0) []).erase card)
        else st.store)[i]? = st.store[i]? := by
      split_ifs
      · exact hstore2 _
      · rfl
    by_cases h2 : card ≠ "-" ∧
        card ∉ st.store.getD (newAddrs.getD ((lp + (pos : Int)) % 4).toNat 0) []
    · simp only [if_pos h2]
    simp only [if_neg h2]
    by_cases h3 : pos % 4 = 3
    · simp only [if_pos h3]
      split
      · exact hstore2'
      · split_ifs <;>
          first
            | exact hstore2'
            | exact hstore2 _
            | rfl
            | (rw [ih _ _ i hi]
               try first
                 | exact hstore2'
                 | exact hstore2 _
                 | rfl)
    · simp only [if_neg h3]
      rw [ih _ _ i hi]
      exact hstore2'

/-- C9: `validate_play` never mutates the caller's hands.  In the store
model the caller's four hand lists sit at `handAddrs`; after the call —
whether it returns a result or raises — every cell of the caller's store is
unchanged (the deep copy at function entry puts all writes at fresh
addresses). -/
theorem c9_validate_play_frame (play_sequence lead : String) (handAddrs : List Nat)
    (trump : String) (σ : Store) (h4 : handAddrs.length = 4) (i : Nat) (hi : i < σ.length) :
    ((validate_play_heap play_sequence lead handAddrs trump σ).1)[i]? = σ[i]? := by
  unfold validate_play_heap
  by_cases hmiss : play_sequence = "" ∨ lead = "" ∨ trump = ""
  · rw [if_pos hmiss]
  rw [if_neg hmiss]
  have hσ2 : (σ ++ handAddrs.map (fun a => σ.getD a []))[i]? = σ[i]? :=
    List.getElem?_append_left hi
  have hlow : ∀ k, k < 4 →
      σ.length ≤ ((List.range handAddrs.length).map (fun j => σ.length + j)).getD k 0 := by
    intro k hk
    rw [h4]
    have hr4 : List.range 4 = [0, 1, 2, 3] := rfl
    rw [hr4]
    interval_cases k <;> simp
  by_cases hbal : (pyFilterRemove ("-" ::
      (((List.range handAddrs.length).map (fun j => σ.length + j)).map
        (fun a => (σ ++ handAddrs.map (fun a => σ.getD a [])).getD a [])).flatten) []
      (pySplit (pyReplace (pyReplace play_sequence "HTHQ" "HT HQ") "--" "-") ' ')).length
      % 4 ≠ 0
  · simp only [if_pos hbal]
    exact hσ2
  simp only [if_neg hbal]
  have hloop := playLoop_frame ((List.range handAddrs.length).map (fun j => σ.length + j))
    (((pyListIndex ORDER lead).getD 0 : Nat) : Int)
    (((((pyListIndex ORDER lead).getD 0 : Nat) : Int) - 1) % 4) trump
    σ.length hlow
    (pyFilterRemove ("-" ::
      (((List.range handAddrs.length).map (fun j => σ.length + j)).map
        (fun a => (σ ++ handAddrs.map (fun a => σ.getD a [])).getD a [])).flatten) []
      (pySplit (pyReplace (pyReplace play_sequence "HTHQ" "HT HQ") "--" "-") ' '))
    0
    ⟨σ ++ handAddrs.map (fun a => σ.getD a []), "", [], 0, 0,
      (((pyListIndex ORDER lead).getD 0 : Nat) : Int), [], 0⟩ i hi
  split
  · rw [hloop.trans hσ2]
  · rw [hloop.trans hσ2]

/-- Witness for C9 at a concrete call, discharging the four-hand and in-range
hypotheses. -/
theorem c9_validate_play_frame_witness :
    ([0, 1, 2, 3] : List Nat).length = 4 ∧ (0 : Nat) < 2 ∧
      ((validate_play_heap "HA H2" "N" [0, 1, 2, 3] "S" [["HA"], ["H2"]]).1)[0]? =
        (([["HA"], ["H2"]] : Store))[0]? :=
  ⟨by decide, by decide,
    c9_validate_play_frame "HA H2" "N" [0, 1, 2, 3] "S" [["HA"], ["H2"]] (by decide) 0
      (by decide)⟩

/-! ## C3: the three reconciliations of `clean_board` -/

/-- A database row whose auction field is absent but whose declarer seat is
supplied directly (otherwise the valid `test_clean_board` fixture). -/
def c3Row : DbRow :=
  { event := "2000 Bridge", date := "2000.??.??", northname := "North", eastname := "East",
    southname := "South", westname := "West", deal := testDeal, vulnerable := "All",
    dealer := "N", bidstart := "N", auction := "", contract := "Pass", declarer := "N",
    lead := "", play := "", result := 9 }

/-- C3 counterexample: on a board whose auction is absent (so no declarer is
derivable from it), a directly-supplied declarer seat is NOT accepted:
`clean_board` raises `DeclarerContradictionError`, because the derived
declarer defaults to the non-empty sentinel `"P"` (`find_declarer... or "P"`)
and the seat contradicts it. -/
theorem c3_counterexample :
    clean_board_row c3Row wbfTestDataCB = .error .declarerContradictionError ∧
      find_declarer_from_auction "" c3Row.bidstart = "" := by decide

/-- C3 (amended): `ensure_non_contradiction` itself follows the claimed
trichotomy — equal values pass, an absent value defers to the present one,
two present distinct values are a contradiction — but for the declarer field
`clean_board` feeds it the sentinel `"P"` instead of the empty string whenever
no declarer is derivable from the auction, so on a board with an absent
auction EVERY directly-supplied declarer seat raises
`DeclarerContradictionError` instead of being accepted. -/
theorem c3_reconciliation :
    (∀ v1 v2 : String,
      (v1 = v2 → ensure_non_contradiction v1 v2 = .ok v2) ∧
      (v1 = "" → ensure_non_contradiction v1 v2 = .ok v2) ∧
      (v2 = "" → ensure_non_contradiction v1 v2 = .ok v1) ∧
      (v1 ≠ "" → v2 ≠ "" → v1 ≠ v2 → ensure_non_contradiction v1 v2 = .error ())) ∧
    (∀ d ∈ ORDER,
      clean_board c3Row.event c3Row.date c3Row.northname c3Row.eastname c3Row.southname
        c3Row.westname c3Row.deal c3Row.vulnerable c3Row.dealer c3Row.bidstart c3Row.auction
        c3Row.contract d c3Row.lead c3Row.play c3Row.result wbfTestDataCB =
        .error .declarerContradictionError) := by
  constructor
  · intro v1 v2
    refine ⟨?_, ?_, ?_, ?_⟩ <;> unfold ensure_non_contradiction
    · intro h
      subst h
      split_ifs with h1 h2
      · exact absurd rfl h2.2
      · rfl
      · rfl
    · intro h
      subst h
      split_ifs with h1 h2
      · exact absurd rfl h2.1
      · rfl
      · rw [not_not.mp h1]
    · intro h
      subst h
      simp
    · intro h1 h2 h3
      rw [if_pos h2, if_pos ⟨h1, h3⟩]
  · intro d hd
    fin_cases hd <;> decide

/-- Witness for C3 at concrete values: the trichotomy at `"3D"`/`"3D"` and the
declarer rejection at seat `"N"`. -/
theorem c3_reconciliation_witness :
    ensure_non_contradiction "3D" "3D" = .ok "3D" ∧
      clean_board c3Row.event c3Row.date c3Row.northname c3Row.eastname c3Row.southname
        c3Row.westname c3Row.deal c3Row.vulnerable c3Row.dealer c3Row.bidstart c3Row.auction
        c3Row.contract "N" c3Row.lead c3Row.play c3Row.result wbfTestDataCB =
        .error .declarerContradictionError :=
  ⟨(c3_reconciliation.1 "3D" "3D").1 rfl, c3_reconciliation.2 "N" (by decide)⟩

/-! ## C4: an exception outside the `BoardError` family escapes `clean_board` -/

/-- A database row that is valid in every respect except that its event name
contains a comma-bearing four-character window (`"1,95"`) and its date is
uninformative. -/
def c4Row : DbRow :=
  { event := "1,95", date := "", northname := "North", eastname := "East",
    southname := "South", westname := "West", deal := testDeal, vulnerable := "All",
    dealer := "N", bidstart := "N", auction := "1D 1H X P P 2C 2D 3C 3D P P P",
    contract := "3D", declarer := "N", lead := "E", play := "SQ S2 S3 SK - - - S5",
    result := 9 }

set_option synthInstance.maxSize 512 in
/-- C4: `clean_board` does NOT confine its exceptions to the `BoardError`
family.  The year regex `.*([1-2][0,9][0-2,5-9][0-9])` has literal commas
inside its character classes, so the event `"1,95"` matches and
`int("1,95")` raises an uncaught `ValueError`; `get_clean_boards` only
catches `BoardError`, so the whole batch aborts on this single row. -/
theorem c4_uncaught_value_error :
    clean_board_row c4Row wbfTestDataCB = .error .pyValueError ∧
      BoardExc.isBoardError .pyValueError = false ∧
      get_clean_boards [c4Row] wbfTestDataCB = .error .pyValueError := by decide
